import Mathlib

/-!
Shallow embedding of the Risk Scoring & Aggregation Engine
(src/src/models/{cardiovascular,metabolic,renal,hepatic,hematologic,composite}_risk.py).

Modelling conventions:
* A patient record is a structure of `Option ℚ` fields, one per marker code the
  engine reads; `none` models the pandas missing sentinel (NaN).  The Python
  guard `if not pd.isna(x)` becomes a `match` on the option.
* Numeric values are exact rationals.  Python `round(x, 1)` (round half to even
  on the exact value) is modelled by `round1`; Python `int(x)` (truncation
  toward zero) by `pyInt`; `max(0, min(x, 100))` by `clamp01`.
* Fallible code is modelled with `Option`: the only run-time failure reachable
  from `calculate_composite_score` with a supplied configuration is the
  `KeyError` raised by `self.weights[k]` when the configured `risk_weights`
  table lacks one of the five domain keys; it is modelled as `none`.
* The scorers store `self.thresholds = thresholds.get(domain, {})` at
  construction but none of the scoring methods ever reads that field (every
  cut-point is a hard-coded literal in the method bodies).  The stored table is
  modelled by the per-model `init` functions; the scoring functions are
  faithful stateless translations of the method bodies.
* String payloads that only format numbers into human-readable descriptions
  and the free-text recommendation sentences are not modelled; risk factors
  keep their marker / value / unit / severity / category fields, and alerts
  keep domain, domain_key, severity, score, the structured risk-factor list
  and the domain-specific extra classification.
-/

/-- Python `round` to the nearest integer on the exact rational: round half to
even. -/
def pyRound (x : ℚ) : ℤ :=
  if x - ⌊x⌋ < 1/2 then ⌊x⌋
  else if 1/2 < x - ⌊x⌋ then ⌊x⌋ + 1
  else if Even ⌊x⌋ then ⌊x⌋ else ⌊x⌋ + 1

/-- Python `round(x, 1)` on the exact rational value. -/
def round1 (x : ℚ) : ℚ := (pyRound (10 * x) : ℚ) / 10

/-- Python `max(0, min(score, 100))`. -/
def clamp01 (x : ℚ) : ℚ := max 0 (min x 100)

/-- Python `int(x)`: truncation toward zero. -/
def pyInt (x : ℚ) : ℤ := x.num.tdiv (x.den : ℤ)

/-- One patient record: marker code → value (`none` = missing / NaN). -/
structure Patient where
  RIDAGEYR : Option ℚ := none      -- age in years
  RIAGENDR : Option ℚ := none      -- gender code (1 = male, 2 = female)
  LBDLDL : Option ℚ := none        -- LDL cholesterol
  LBDHDD : Option ℚ := none        -- HDL cholesterol
  LBXTR : Option ℚ := none         -- triglycerides
  TC_HDL_ratio : Option ℚ := none  -- total cholesterol / HDL
  LBXGLU : Option ℚ := none        -- fasting glucose
  LBXGH : Option ℚ := none         -- HbA1c
  HOMA_IR : Option ℚ := none       -- insulin-resistance index
  eGFR : Option ℚ := none          -- estimated glomerular filtration rate
  ACR : Option ℚ := none           -- albumin/creatinine ratio
  LBXSCR : Option ℚ := none        -- serum creatinine
  LBXSASSI : Option ℚ := none      -- AST
  LBXSGTSI : Option ℚ := none      -- ALT
  FIB4 : Option ℚ := none          -- FIB-4 index
  AST_ALT_ratio : Option ℚ := none -- AST / ALT
  LBXSAL : Option ℚ := none        -- albumin
  LBXSTB : Option ℚ := none        -- total bilirubin
  LBXHGB : Option ℚ := none        -- hemoglobin
  LBXWBCSI : Option ℚ := none      -- white blood cells
  LBXPLTSI : Option ℚ := none      -- platelets
  LBXMCVSI : Option ℚ := none      -- mean corpuscular volume
deriving Repr, DecidableEq

/-- Structured risk factor (description string, which only formats the value,
is not modelled). -/
structure RiskFactor where
  marker : String
  value : ℚ
  unit : String
  severity : String
  category : String
deriving Repr, DecidableEq

namespace CardiovascularRiskModel

/-- LDL contribution of `calculate_score` (weight 40). -/
def ldlScore : Option ℚ → ℚ
  | none => 0
  | some v =>
    if 190 ≤ v then 40
    else if 160 ≤ v then 32
    else if 130 ≤ v then 24
    else if 100 ≤ v then 12
    else 0

/-- HDL contribution (weight 25; protective bonus −5 at HDL ≥ 60).
Threshold: 50 for gender code 2 (female), otherwise 40. -/
def hdlScore (gender : Option ℚ) : Option ℚ → ℚ
  | none => 0
  | some v =>
    let threshold : ℚ := if gender = some 2 then 50 else 40
    if v < threshold then 25
    else if v < 60 then 10
    else -5

/-- Triglyceride contribution (weight 20). -/
def tgScore : Option ℚ → ℚ
  | none => 0
  | some v =>
    if 500 ≤ v then 20
    else if 200 ≤ v then 16
    else if 150 ≤ v then 8
    else 0

/-- TC/HDL-ratio contribution (weight 15). -/
def tcHdlScore : Option ℚ → ℚ
  | none => 0
  | some v =>
    if 5 < v then 15
    else if 4 < v then 10
    else if (3.5 : ℚ) < v then 5
    else 0

/-- Age multiplier of the cardiovascular scorer (missing age: no adjustment). -/
def ageAdjust (age : Option ℚ) (s : ℚ) : ℚ :=
  match age with
  | none => s
  | some a =>
    if 65 ≤ a then s * 1.3
    else if 55 ≤ a then s * 1.15
    else if 45 ≤ a then s * 1.0
    else s * 0.8

/-- `CardiovascularRiskModel.calculate_score`. -/
def calculate_score (p : Patient) : ℚ :=
  round1 (clamp01 (ageAdjust p.RIDAGEYR
    (ldlScore p.LBDLDL + hdlScore p.RIAGENDR p.LBDHDD + tgScore p.LBXTR
      + tcHdlScore p.TC_HDL_ratio)))

/-- LDL block of `identify_risk_factors`. -/
def ldlFactor : Option ℚ → List RiskFactor
  | none => []
  | some v =>
    if 190 ≤ v then [⟨"LDL cholesterol", v, "mg/dL", "very_high", "dyslipidemia"⟩]
    else if 160 ≤ v then [⟨"LDL cholesterol", v, "mg/dL", "high", "dyslipidemia"⟩]
    else if 130 ≤ v then [⟨"LDL cholesterol", v, "mg/dL", "borderline", "dyslipidemia"⟩]
    else []

/-- HDL block of `identify_risk_factors`. -/
def hdlFactor (gender : Option ℚ) : Option ℚ → List RiskFactor
  | none => []
  | some v =>
    let threshold : ℚ := if gender = some 2 then 50 else 40
    if v < threshold then [⟨"HDL cholesterol", v, "mg/dL", "high", "dyslipidemia"⟩]
    else []

/-- Triglyceride block of `identify_risk_factors`. -/
def tgFactor : Option ℚ → List RiskFactor
  | none => []
  | some v =>
    if 500 ≤ v then [⟨"Triglycerides", v, "mg/dL", "very_high", "dyslipidemia"⟩]
    else if 200 ≤ v then [⟨"Triglycerides", v, "mg/dL", "high", "dyslipidemia"⟩]
    else []

/-- TC/HDL-ratio block of `identify_risk_factors`. -/
def ratioFactor : Option ℚ → List RiskFactor
  | none => []
  | some v =>
    if 5 < v then [⟨"TC/HDL ratio", v, "ratio", "high", "dyslipidemia"⟩]
    else []

/-- `CardiovascularRiskModel.identify_risk_factors`. -/
def identify_risk_factors (p : Patient) : List RiskFactor :=
  ldlFactor p.LBDLDL ++ hdlFactor p.RIAGENDR p.LBDHDD ++ tgFactor p.LBXTR
    ++ ratioFactor p.TC_HDL_ratio

/-- `CardiovascularRiskModel.calculate_10yr_cvd_risk` (None when age missing). -/
def calculate_10yr_cvd_risk (p : Patient) : Option ℚ :=
  let score := calculate_score p
  match p.RIDAGEYR with
  | none => none
  | some age =>
    let base : ℚ :=
      if 80 ≤ score then 30
      else if 60 ≤ score then 20
      else if 40 ≤ score then 10
      else if 20 ≤ score then 5
      else 2
    let base := if 65 ≤ age then base * 1.5 else if 55 ≤ age then base * 1.2 else base
    some (min base 100)

end CardiovascularRiskModel

namespace MetabolicRiskModel

/-- Fasting-glucose contribution (weight 40). -/
def glucoseScore : Option ℚ → ℚ
  | none => 0
  | some v =>
    if 126 ≤ v then 40
    else if 100 ≤ v then 20
    else 0

/-- HbA1c contribution (weight 40). -/
def hba1cScore : Option ℚ → ℚ
  | none => 0
  | some v =>
    if (6.5 : ℚ) ≤ v then 40
    else if (5.7 : ℚ) ≤ v then 20
    else 0

/-- HOMA-IR contribution (weight 20). -/
def homaScore : Option ℚ → ℚ
  | none => 0
  | some v =>
    if 5 ≤ v then 20
    else if (2.5 : ℚ) ≤ v then 10
    else 0

/-- Age multiplier of the metabolic scorer. -/
def ageAdjust (age : Option ℚ) (s : ℚ) : ℚ :=
  match age with
  | none => s
  | some a =>
    if 65 ≤ a then s * 1.2
    else if 45 ≤ a then s * 1.1
    else s

/-- `MetabolicRiskModel.calculate_score`. -/
def calculate_score (p : Patient) : ℚ :=
  round1 (clamp01 (ageAdjust p.RIDAGEYR
    (glucoseScore p.LBXGLU + hba1cScore p.LBXGH + homaScore p.HOMA_IR)))

/-- Glucose block of `identify_risk_factors`. -/
def glucoseFactor : Option ℚ → List RiskFactor
  | none => []
  | some v =>
    if 126 ≤ v then [⟨"Fasting glucose", v, "mg/dL", "very_high", "diabetes"⟩]
    else if 100 ≤ v then [⟨"Fasting glucose", v, "mg/dL", "high", "prediabetes"⟩]
    else []

/-- HbA1c block of `identify_risk_factors`. -/
def hba1cFactor : Option ℚ → List RiskFactor
  | none => []
  | some v =>
    if (6.5 : ℚ) ≤ v then [⟨"HbA1c", v, "%", "very_high", "diabetes"⟩]
    else if (5.7 : ℚ) ≤ v then [⟨"HbA1c", v, "%", "high", "prediabetes"⟩]
    else []

/-- HOMA-IR block of `identify_risk_factors`. -/
def homaFactor : Option ℚ → List RiskFactor
  | none => []
  | some v =>
    if (2.5 : ℚ) ≤ v then [⟨"HOMA-IR", v, "index", "high", "insulin_resistance"⟩]
    else []

/-- `MetabolicRiskModel.identify_risk_factors`. -/
def identify_risk_factors (p : Patient) : List RiskFactor :=
  glucoseFactor p.LBXGLU ++ hba1cFactor p.LBXGH ++ homaFactor p.HOMA_IR

/-- `not pd.isna(o) and test(o)` as a boolean. -/
def present (o : Option ℚ) (test : ℚ → Bool) : Bool :=
  match o with
  | none => false
  | some v => test v

/-- `MetabolicRiskModel.assess_diabetes_status` (diabetes checked before
prediabetes, so diabetes wins on conflicting signals). -/
def assess_diabetes_status (p : Patient) : String :=
  let glucose := p.LBXGLU
  let hba1c := p.LBXGH
  if present glucose (fun v => decide (126 ≤ v)) || present hba1c (fun v => decide ((6.5 : ℚ) ≤ v)) then
    "diabetes"
  else if present glucose (fun v => decide (100 ≤ v ∧ v < 126))
      || present hba1c (fun v => decide ((5.7 : ℚ) ≤ v ∧ v < (6.5 : ℚ))) then
    "prediabetes"
  else if present glucose (fun v => decide (v < 100)) || present hba1c (fun v => decide (v < (5.7 : ℚ))) then
    "normal"
  else
    "insufficient_data"

end MetabolicRiskModel

namespace RenalRiskModel

/-- eGFR contribution (weight 60; severity descends as eGFR rises). -/
def egfrScore : Option ℚ → ℚ
  | none => 0
  | some v =>
    if v < 15 then 60
    else if v < 30 then 50
    else if v < 45 then 40
    else if v < 60 then 25
    else if v < 90 then 10
    else 0

/-- ACR contribution (weight 40). -/
def acrScore : Option ℚ → ℚ
  | none => 0
  | some v =>
    if 300 ≤ v then 40
    else if 30 ≤ v then 20
    else 0

/-- Age multiplier of the renal scorer. -/
def ageAdjust (age : Option ℚ) (s : ℚ) : ℚ :=
  match age with
  | none => s
  | some a =>
    if 75 ≤ a then s * 1.15
    else if 65 ≤ a then s * 1.1
    else s

/-- `RenalRiskModel.calculate_score` (serum creatinine is never read here). -/
def calculate_score (p : Patient) : ℚ :=
  round1 (clamp01 (ageAdjust p.RIDAGEYR (egfrScore p.eGFR + acrScore p.ACR)))

/-- eGFR block of `identify_risk_factors`. -/
def egfrFactor : Option ℚ → List RiskFactor
  | none => []
  | some v =>
    if v < 15 then [⟨"eGFR", v, "mL/min/1.73m2", "critical", "kidney_failure"⟩]
    else if v < 30 then [⟨"eGFR", v, "mL/min/1.73m2", "very_high", "severe_ckd"⟩]
    else if v < 45 then [⟨"eGFR", v, "mL/min/1.73m2", "high", "moderate_ckd"⟩]
    else if v < 60 then [⟨"eGFR", v, "mL/min/1.73m2", "moderate", "mild_ckd"⟩]
    else []

/-- ACR block of `identify_risk_factors`. -/
def acrFactor : Option ℚ → List RiskFactor
  | none => []
  | some v =>
    if 300 ≤ v then [⟨"ACR", v, "mg/g", "very_high", "macroalbuminuria"⟩]
    else if 30 ≤ v then [⟨"ACR", v, "mg/g", "high", "microalbuminuria"⟩]
    else []

/-- Creatinine block of `identify_risk_factors`: threshold 1.1 for gender code 2
(female), otherwise 1.3; creatinine contributes nothing to the score. -/
def creatinineFactor (gender : Option ℚ) : Option ℚ → List RiskFactor
  | none => []
  | some v =>
    let threshold : ℚ := if gender = some 2 then 1.1 else 1.3
    if threshold < v then [⟨"Creatinine", v, "mg/dL", "high", "elevated_creatinine"⟩]
    else []

/-- `RenalRiskModel.identify_risk_factors`. -/
def identify_risk_factors (p : Patient) : List RiskFactor :=
  egfrFactor p.eGFR ++ acrFactor p.ACR ++ creatinineFactor p.RIAGENDR p.LBXSCR

/-- Result record of `assess_ckd_stage`. -/
structure CkdStage where
  gfr_stage : String
  albuminuria_stage : String
  ckd_stage : String
  risk_category : String
deriving Repr, DecidableEq

/-- KDIGO heat-map table used by `assess_ckd_stage`. -/
def riskMatrix : List (String × String) :=
  [("G1A1", "low"), ("G1A2", "moderate"), ("G1A3", "high"),
   ("G2A1", "low"), ("G2A2", "moderate"), ("G2A3", "high"),
   ("G3aA1", "moderate"), ("G3aA2", "high"), ("G3aA3", "very_high"),
   ("G3bA1", "high"), ("G3bA2", "very_high"), ("G3bA3", "very_high"),
   ("G4A1", "very_high"), ("G4A2", "very_high"), ("G4A3", "very_high"),
   ("G5A1", "very_high"), ("G5A2", "very_high"), ("G5A3", "very_high")]

/-- `RenalRiskModel.assess_ckd_stage`. -/
def assess_ckd_stage (p : Patient) : CkdStage :=
  let gfr : String :=
    match p.eGFR with
    | none => "unknown"
    | some v =>
      if 90 ≤ v then "G1"
      else if 60 ≤ v then "G2"
      else if 45 ≤ v then "G3a"
      else if 30 ≤ v then "G3b"
      else if 15 ≤ v then "G4"
      else "G5"
  let alb : String :=
    match p.ACR with
    | none => "unknown"
    | some v =>
      if v < 30 then "A1"
      else if v < 300 then "A2"
      else "A3"
  if gfr ≠ "unknown" ∧ alb ≠ "unknown" then
    let stage := gfr ++ alb
    { gfr_stage := gfr, albuminuria_stage := alb, ckd_stage := stage,
      risk_category := (riskMatrix.lookup stage).getD "unknown" }
  else
    { gfr_stage := gfr, albuminuria_stage := alb, ckd_stage := "unknown",
      risk_category := "unknown" }

end RenalRiskModel

namespace HepaticRiskModel

/-- AST contribution (weight 20).  The source tests `gender == 1`, so a
missing or unrecognised gender falls to the female threshold 32. -/
def astScore (gender : Option ℚ) : Option ℚ → ℚ
  | none => 0
  | some v =>
    let threshold : ℚ := if gender = some 1 then 40 else 32
    if threshold * 3 < v then 20
    else if threshold * 2 < v then 15
    else if threshold < v then 8
    else 0

/-- ALT contribution (weight 25); same female-by-default threshold shape. -/
def altScore (gender : Option ℚ) : Option ℚ → ℚ
  | none => 0
  | some v =>
    let threshold : ℚ := if gender = some 1 then 41 else 33
    if threshold * 3 < v then 25
    else if threshold * 2 < v then 18
    else if threshold < v then 10
    else 0

/-- FIB-4 contribution (weight 35). -/
def fib4Score : Option ℚ → ℚ
  | none => 0
  | some v =>
    if (3.25 : ℚ) < v then 35
    else if (1.45 : ℚ) < v then 18
    else 0

/-- AST/ALT-ratio contribution (weight 10). -/
def ratioScore : Option ℚ → ℚ
  | none => 0
  | some v =>
    if 2 < v then 10
    else if 1 < v then 5
    else 0

/-- Low-albumin flat contribution (weight 5). -/
def albuminScore : Option ℚ → ℚ
  | none => 0
  | some v => if v < (3.5 : ℚ) then 5 else 0

/-- High-bilirubin flat contribution (weight 5). -/
def bilirubinScore : Option ℚ → ℚ
  | none => 0
  | some v => if (1.2 : ℚ) < v then 5 else 0

/-- Age multiplier of the hepatic scorer. -/
def ageAdjust (age : Option ℚ) (s : ℚ) : ℚ :=
  match age with
  | none => s
  | some a => if 65 ≤ a then s * 1.1 else s

/-- `HepaticRiskModel.calculate_score`. -/
def calculate_score (p : Patient) : ℚ :=
  round1 (clamp01 (ageAdjust p.RIDAGEYR
    (astScore p.RIAGENDR p.LBXSASSI + altScore p.RIAGENDR p.LBXSGTSI
      + fib4Score p.FIB4 + ratioScore p.AST_ALT_ratio
      + albuminScore p.LBXSAL + bilirubinScore p.LBXSTB)))

/-- AST block of `identify_risk_factors`. -/
def astFactor (gender : Option ℚ) : Option ℚ → List RiskFactor
  | none => []
  | some v =>
    let threshold : ℚ := if gender = some 1 then 40 else 32
    if threshold < v then
      [⟨"AST", v, "U/L", if threshold * 2 < v then "very_high" else "high",
        "hepatic_injury"⟩]
    else []

/-- ALT block of `identify_risk_factors`. -/
def altFactor (gender : Option ℚ) : Option ℚ → List RiskFactor
  | none => []
  | some v =>
    let threshold : ℚ := if gender = some 1 then 41 else 33
    if threshold < v then
      [⟨"ALT", v, "U/L", if threshold * 2 < v then "very_high" else "high",
        "hepatic_injury"⟩]
    else []

/-- FIB-4 block of `identify_risk_factors`. -/
def fib4Factor : Option ℚ → List RiskFactor
  | none => []
  | some v =>
    if (3.25 : ℚ) < v then [⟨"FIB-4 Index", v, "index", "very_high", "advanced_fibrosis"⟩]
    else if (1.45 : ℚ) < v then [⟨"FIB-4 Index", v, "index", "moderate", "indeterminate_fibrosis"⟩]
    else []

/-- AST/ALT-ratio block of `identify_risk_factors`. -/
def ratioFactor : Option ℚ → List RiskFactor
  | none => []
  | some v =>
    if 1 < v then [⟨"AST/ALT ratio", v, "ratio", "moderate", "chronic_liver_disease"⟩]
    else []

/-- Albumin block of `identify_risk_factors`. -/
def albuminFactor : Option ℚ → List RiskFactor
  | none => []
  | some v =>
    if v < (3.5 : ℚ) then [⟨"Albumin", v, "g/dL", "high", "hepatic_synthetic_dysfunction"⟩]
    else []

/-- `HepaticRiskModel.identify_risk_factors`. -/
def identify_risk_factors (p : Patient) : List RiskFactor :=
  astFactor p.RIAGENDR p.LBXSASSI ++ altFactor p.RIAGENDR p.LBXSGTSI
    ++ fib4Factor p.FIB4 ++ ratioFactor p.AST_ALT_ratio ++ albuminFactor p.LBXSAL

/-- `HepaticRiskModel.assess_fibrosis_risk`. -/
def assess_fibrosis_risk (p : Patient) : String :=
  match p.FIB4 with
  | none => "insufficient_data"
  | some v =>
    if (3.25 : ℚ) < v then "high"
    else if (1.45 : ℚ) < v then "intermediate"
    else "low"

end HepaticRiskModel

namespace HematologicRiskModel

/-- Hemoglobin contribution (weight 40; threshold 12 for gender code 2,
otherwise 13; polycythemia band above 18). -/
def hgbScore (gender : Option ℚ) : Option ℚ → ℚ
  | none => 0
  | some v =>
    let threshold : ℚ := if gender = some 2 then 12 else 13
    if v < threshold - 3 then 40
    else if v < threshold - 2 then 30
    else if v < threshold then 15
    else if 18 < v then 10
    else 0

/-- White-blood-cell contribution (weight 25). -/
def wbcScore : Option ℚ → ℚ
  | none => 0
  | some v =>
    if v < 3 then 25
    else if v < 4 then 12
    else if 15 < v then 25
    else if 11 < v then 10
    else 0

/-- Platelet contribution (weight 25). -/
def pltScore : Option ℚ → ℚ
  | none => 0
  | some v =>
    if v < 50 then 25
    else if v < 100 then 20
    else if v < 150 then 10
    else if 450 < v then 15
    else 0

/-- MCV contribution (weight 10). -/
def mcvScore : Option ℚ → ℚ
  | none => 0
  | some v =>
    if v < 70 then 10
    else if v < 80 then 5
    else if 100 < v then 5
    else 0

/-- Age multiplier of the hematologic scorer. -/
def ageAdjust (age : Option ℚ) (s : ℚ) : ℚ :=
  match age with
  | none => s
  | some a => if 75 ≤ a then s * 1.1 else s

/-- `HematologicRiskModel.calculate_score`. -/
def calculate_score (p : Patient) : ℚ :=
  round1 (clamp01 (ageAdjust p.RIDAGEYR
    (hgbScore p.RIAGENDR p.LBXHGB + wbcScore p.LBXWBCSI + pltScore p.LBXPLTSI
      + mcvScore p.LBXMCVSI)))

/-- Hemoglobin block of `identify_risk_factors`. -/
def hgbFactor (gender : Option ℚ) : Option ℚ → List RiskFactor
  | none => []
  | some v =>
    let threshold : ℚ := if gender = some 2 then 12 else 13
    if v < threshold then
      [⟨"Hemoglobin", v, "g/dL",
        if v < threshold - 3 then "critical"
        else if v < threshold - 2 then "very_high"
        else "high", "anemia"⟩]
    else if 18 < v then [⟨"Hemoglobin", v, "g/dL", "moderate", "polycythemia"⟩]
    else []

/-- WBC block of `identify_risk_factors`. -/
def wbcFactor : Option ℚ → List RiskFactor
  | none => []
  | some v =>
    if v < 4 then
      [⟨"WBC", v, "10^3/uL", if v < 3 then "very_high" else "high", "leukopenia"⟩]
    else if 11 < v then
      [⟨"WBC", v, "10^3/uL", if 15 < v then "very_high" else "moderate", "leukocytosis"⟩]
    else []

/-- Platelet block of `identify_risk_factors`. -/
def pltFactor : Option ℚ → List RiskFactor
  | none => []
  | some v =>
    if v < 150 then
      [⟨"Platelet", v, "10^3/uL",
        if v < 50 then "critical"
        else if v < 100 then "very_high"
        else "high", "thrombocytopenia"⟩]
    else if 450 < v then [⟨"Platelet", v, "10^3/uL", "moderate", "thrombocytosis"⟩]
    else []

/-- MCV block of `identify_risk_factors`. -/
def mcvFactor : Option ℚ → List RiskFactor
  | none => []
  | some v =>
    if v < 80 then
      [⟨"MCV", v, "fL", if v < 70 then "high" else "moderate", "microcytic_anemia"⟩]
    else if 100 < v then [⟨"MCV", v, "fL", "moderate", "macrocytic_anemia"⟩]
    else []

/-- `HematologicRiskModel.identify_risk_factors`. -/
def identify_risk_factors (p : Patient) : List RiskFactor :=
  hgbFactor p.RIAGENDR p.LBXHGB ++ wbcFactor p.LBXWBCSI ++ pltFactor p.LBXPLTSI
    ++ mcvFactor p.LBXMCVSI

/-- `HematologicRiskModel.classify_anemia_type` (`none` when hemoglobin or
gender is missing, or when there is no anemia). -/
def classify_anemia_type (p : Patient) : Option String :=
  match p.LBXHGB, p.RIAGENDR with
  | none, _ => none
  | _, none => none
  | some hgb, some g =>
    let threshold : ℚ := if g = 2 then 12 else 13
    if threshold ≤ hgb then none
    else
      match p.LBXMCVSI with
      | none => some "anemia_type_unknown"
      | some mcv =>
        if mcv < 80 then some "microcytic"
        else if mcv ≤ 100 then some "normocytic"
        else some "macrocytic"

end HematologicRiskModel

/-- The `risk_weights` table of the configuration: a partial mapping from the
five domain keys (a missing field models a missing dictionary key). -/
structure WeightMap where
  cardiovascular : Option ℚ := none
  metabolic : Option ℚ := none
  renal : Option ℚ := none
  hepatic : Option ℚ := none
  hematologic : Option ℚ := none
deriving Repr, DecidableEq

/-- Default weights used when the whole `risk_weights` key is absent. -/
def defaultWeights : WeightMap :=
  { cardiovascular := some 0.30, metabolic := some 0.25, renal := some 0.20,
    hepatic := some 0.15, hematologic := some 0.10 }

/-- One entry of the ordered `risk_levels` table. -/
structure RiskLevel where
  name : String
  rangeMin : ℚ
  rangeMax : ℚ
  severity : String
  label : String
deriving Repr, DecidableEq

/-- The `multi_domain_penalty` table (each key individually optional). -/
structure PenaltyCfg where
  threshold_score : Option ℚ := none
  min_domains : Option ℕ := none
  multiplier : Option ℚ := none
deriving Repr, DecidableEq

/-- Generic key-value table standing for an unparsed YAML domain block (the
scorers store such a block but never read it). -/
abbrev ThresholdTable := List (String × ℚ)

/-- A supplied (already parsed) configuration.  A `none` / `[]` field models an
absent dictionary key, exactly what `dict.get` sees in the source. -/
structure Config where
  cardiovascular : Option ThresholdTable := none
  metabolic : Option ThresholdTable := none
  renal : Option ThresholdTable := none
  hepatic : Option ThresholdTable := none
  hematologic : Option ThresholdTable := none
  risk_weights : Option WeightMap := none
  risk_levels : List RiskLevel := []
  multi_domain_penalty : Option PenaltyCfg := none
deriving Repr, DecidableEq

/-- State stored by a domain scorer at construction: the (never re-read)
thresholds block. -/
structure DomainModelState where
  thresholds : ThresholdTable
deriving Repr, DecidableEq

/-- `CardiovascularRiskModel.__init__` with a supplied config:
`thresholds.get("cardiovascular", {})`, no failure path. -/
def CardiovascularRiskModel.init (cfg : Config) : DomainModelState :=
  ⟨cfg.cardiovascular.getD []⟩

/-- `MetabolicRiskModel.__init__` with a supplied config. -/
def MetabolicRiskModel.init (cfg : Config) : DomainModelState :=
  ⟨cfg.metabolic.getD []⟩

/-- `RenalRiskModel.__init__` with a supplied config. -/
def RenalRiskModel.init (cfg : Config) : DomainModelState :=
  ⟨cfg.renal.getD []⟩

/-- `HepaticRiskModel.__init__` with a supplied config. -/
def HepaticRiskModel.init (cfg : Config) : DomainModelState :=
  ⟨cfg.hepatic.getD []⟩

/-- `HematologicRiskModel.__init__` with a supplied config. -/
def HematologicRiskModel.init (cfg : Config) : DomainModelState :=
  ⟨cfg.hematologic.getD []⟩

namespace CompositeRiskModel

/-- The five domain scores of one record, in the fixed domain order. -/
structure DomainScores where
  cardiovascular : ℚ
  metabolic : ℚ
  renal : ℚ
  hepatic : ℚ
  hematologic : ℚ
deriving Repr, DecidableEq

/-- Step 1 of `calculate_composite_score`: invoke all five scorers. -/
def domainScores (p : Patient) : DomainScores :=
  { cardiovascular := CardiovascularRiskModel.calculate_score p,
    metabolic := MetabolicRiskModel.calculate_score p,
    renal := RenalRiskModel.calculate_score p,
    hepatic := HepaticRiskModel.calculate_score p,
    hematologic := HematologicRiskModel.calculate_score p }

/-- The five scores as a list, in the fixed domain order. -/
def DomainScores.toList (ds : DomainScores) : List ℚ :=
  [ds.cardiovascular, ds.metabolic, ds.renal, ds.hepatic, ds.hematologic]

/-- Look a domain score up by its key (used to state the alert invariant). -/
def DomainScores.get (ds : DomainScores) : String → ℚ
  | "cardiovascular" => ds.cardiovascular
  | "metabolic" => ds.metabolic
  | "renal" => ds.renal
  | "hepatic" => ds.hepatic
  | "hematologic" => ds.hematologic
  | _ => 0

/-- The fixed domain order of the engine. -/
def domainOrder : List String :=
  ["cardiovascular", "metabolic", "renal", "hepatic", "hematologic"]

/-- `sum(self.weights[k] * v for k, v in domain_scores.items())`: `none`
models the `KeyError` raised when a configured weight table lacks a key. -/
def weightedSum (w : WeightMap) (ds : DomainScores) : Option ℚ := do
  let wc ← w.cardiovascular
  let wm ← w.metabolic
  let wr ← w.renal
  let wh ← w.hepatic
  let wb ← w.hematologic
  pure (wc * ds.cardiovascular + wm * ds.metabolic + wr * ds.renal
    + wh * ds.hepatic + wb * ds.hematologic)

/-- Composite age multiplier (missing age: 1.0). -/
def ageMultiplier (age : Option ℚ) : ℚ :=
  match age with
  | none => 1
  | some a => if 75 ≤ a then 1.2 else if 65 ≤ a then 1.1 else 1

/-- `config.get("multi_domain_penalty", {}).get("threshold_score", 70)`. -/
def highRiskThreshold (cfg : Config) : ℚ :=
  ((cfg.multi_domain_penalty.getD {}).threshold_score).getD 70

/-- `config.get("multi_domain_penalty", {}).get("min_domains", 2)`. -/
def minDomains (cfg : Config) : ℕ :=
  ((cfg.multi_domain_penalty.getD {}).min_domains).getD 2

/-- `config.get("multi_domain_penalty", {}).get("multiplier", 1.15)`. -/
def penaltyMultiplier (cfg : Config) : ℚ :=
  ((cfg.multi_domain_penalty.getD {}).multiplier).getD 1.15

/-- Number of domains whose unweighted score strictly exceeds the penalty
threshold. -/
def highRiskCount (cfg : Config) (ds : DomainScores) : ℕ :=
  (ds.toList.filter (fun s => highRiskThreshold cfg < s)).length

/-- `CompositeRiskModel._classify_risk`: first `[min, max)` band wins, with
the most severe default when no band matches. -/
def classify_risk : List RiskLevel → ℚ → String × String
  | [], _ => ("CRITICAL", "要精査")
  | lv :: rest, s =>
    if lv.rangeMin ≤ s ∧ s < lv.rangeMax then (lv.severity, lv.label)
    else classify_risk rest s

/-- Domain-specific extra payload of an alert. -/
inductive AlertExtra where
  | cvdRisk (r : Option ℚ)
  | diabetes (status : String)
  | ckd (stage category : String)
  | fibrosis (risk : String)
  | anemia (t : Option String)
deriving Repr, DecidableEq

/-- One alert (free-text recommendation strings are not modelled; the
abnormal-marker descriptions are kept as the structured risk factors they are
formatted from). -/
structure Alert where
  domain : String
  domain_key : String
  severity : String
  score : ℚ
  abnormal_markers : List RiskFactor
  extra : AlertExtra
deriving Repr, DecidableEq

/-- `CompositeRiskModel._generate_alerts`. -/
def generate_alerts (ds : DomainScores) (p : Patient) : List Alert :=
  let a1 : List Alert :=
    if 60 ≤ ds.cardiovascular then
      [{ domain := "心血管系", domain_key := "cardiovascular",
         severity := if 80 ≤ ds.cardiovascular then "CRITICAL" else "HIGH",
         score := ds.cardiovascular,
         abnormal_markers := CardiovascularRiskModel.identify_risk_factors p,
         extra := .cvdRisk (CardiovascularRiskModel.calculate_10yr_cvd_risk p) }]
    else []
  let a2 : List Alert :=
    if 60 ≤ ds.metabolic then
      [{ domain := "代謝系", domain_key := "metabolic",
         severity := if 80 ≤ ds.metabolic then "CRITICAL" else "HIGH",
         score := ds.metabolic,
         abnormal_markers := MetabolicRiskModel.identify_risk_factors p,
         extra := .diabetes (MetabolicRiskModel.assess_diabetes_status p) }]
    else []
  let a3 : List Alert :=
    if 60 ≤ ds.renal then
      [{ domain := "腎機能", domain_key := "renal",
         severity := if 80 ≤ ds.renal then "CRITICAL" else "HIGH",
         score := ds.renal,
         abnormal_markers := RenalRiskModel.identify_risk_factors p,
         extra := .ckd (RenalRiskModel.assess_ckd_stage p).ckd_stage
           (RenalRiskModel.assess_ckd_stage p).risk_category }]
    else []
  let a4 : List Alert :=
    if 60 ≤ ds.hepatic then
      [{ domain := "肝機能", domain_key := "hepatic",
         severity := if 80 ≤ ds.hepatic then "CRITICAL" else "HIGH",
         score := ds.hepatic,
         abnormal_markers := HepaticRiskModel.identify_risk_factors p,
         extra := .fibrosis (HepaticRiskModel.assess_fibrosis_risk p) }]
    else []
  let a5 : List Alert :=
    if 60 ≤ ds.hematologic then
      [{ domain := "血液系", domain_key := "hematologic",
         severity := if 80 ≤ ds.hematologic then "CRITICAL" else "HIGH",
         score := ds.hematologic,
         abnormal_markers := HematologicRiskModel.identify_risk_factors p,
         extra := .anemia (HematologicRiskModel.classify_anemia_type p) }]
    else []
  a1 ++ a2 ++ a3 ++ a4 ++ a5

/-- `CompositeRiskModel._identify_modifiable_factors`. -/
def identify_modifiable_factors (p : Patient) : List String :=
  let m1 : List String :=
    match p.LBDLDL with
    | some v => if 130 ≤ v then ["LDLコレステロール（食事療法・スタチン）"] else []
    | none => []
  let m2 : List String :=
    match p.LBXGLU with
    | some v => if 100 ≤ v then ["血糖値（食事・運動・薬物療法）"] else []
    | none => []
  let m3 : List String :=
    match p.LBXGH with
    | some v => if (5.7 : ℚ) ≤ v then ["HbA1c（糖尿病管理）"] else []
    | none => []
  let m4 : List String :=
    match p.LBXTR with
    | some v => if 150 ≤ v then ["中性脂肪（食事・運動・フィブラート）"] else []
    | none => []
  let m5 : List String :=
    match p.LBDHDD with
    | some v =>
      if v < (if p.RIAGENDR = some 2 then 50 else 40) then
        ["HDLコレステロール（運動・禁煙）"]
      else []
    | none => []
  let m6 : List String :=
    match p.LBXSGTSI with
    | some v => if 40 < v then ["肝機能異常（減量・節酒）"] else []
    | none => []
  m1 ++ m2 ++ m3 ++ m4 ++ m5 ++ m6

/-- `CompositeRiskModel._calculate_percentile`. -/
def calculate_percentile (score : ℚ) (age : Option ℚ) : ℤ :=
  let a : ℚ := age.getD 50
  let base := if 65 ≤ a then score * 0.9 else if a < 45 then score * 1.1 else score
  max 0 (min (pyInt base) 100)

/-- The weighted, age-adjusted composite before the penalty step (`none`
models the weight-table `KeyError`). -/
def weightedAgeAdjusted (cfg : Config) (p : Patient) : Option ℚ :=
  (weightedSum (cfg.risk_weights.getD defaultWeights) (domainScores p)).map
    (fun c => c * ageMultiplier p.RIDAGEYR)

/-- The clamped (still unrounded) composite: penalty step, then the global
clamp to [0, 100]. -/
def compositeRaw (cfg : Config) (p : Patient) : Option ℚ :=
  (weightedAgeAdjusted cfg p).map (fun c1 =>
    let c2 :=
      if minDomains cfg ≤ highRiskCount cfg (domainScores p) then
        min (c1 * penaltyMultiplier cfg) 100
      else c1
    max 0 (min c2 100))

/-- The returned structure (free-text recommendation lists not modelled). -/
structure CompositeResult where
  composite_score : ℚ
  risk_level : String
  risk_label : String
  domain_scores : DomainScores
  alerts : List Alert
  modifiable_factors : List String
  age_adjusted_percentile : ℤ
  age_multiplier : ℚ
  multi_domain_penalty_applied : Bool
deriving Repr, DecidableEq

/-- `CompositeRiskModel.calculate_composite_score` (on the state built by
`__init__` from the supplied config; `none` models the `KeyError` raised by
`self.weights[k]` for a partial configured weight table). -/
def calculate_composite_score (cfg : Config) (p : Patient) : Option CompositeResult :=
  let ds := domainScores p
  match weightedSum (cfg.risk_weights.getD defaultWeights) ds with
  | none => none
  | some composite0 =>
    let am := ageMultiplier p.RIDAGEYR
    let c1 := composite0 * am
    let applied := minDomains cfg ≤ highRiskCount cfg ds
    let c2 := if applied then min (c1 * penaltyMultiplier cfg) 100 else c1
    let c3 := max 0 (min c2 100)
    let cls := classify_risk cfg.risk_levels c3
    some
      { composite_score := round1 c3,
        risk_level := cls.1,
        risk_label := cls.2,
        domain_scores :=
          { cardiovascular := round1 ds.cardiovascular,
            metabolic := round1 ds.metabolic,
            renal := round1 ds.renal,
            hepatic := round1 ds.hepatic,
            hematologic := round1 ds.hematologic },
        alerts := generate_alerts ds p,
        modifiable_factors := identify_modifiable_factors p,
        age_adjusted_percentile := calculate_percentile c3 p.RIDAGEYR,
        age_multiplier := am,
        multi_domain_penalty_applied := decide applied }

end CompositeRiskModel

/-! ## Band indices

For each marker the scoring bands of `calculate_score`, numbered in order of
increasing contribution weight (the code evaluates them high-to-low, so bands
are mutually exclusive); used to state per-marker monotonicity.  Where two
bands carry the same weight (WBC severe low/high, MCV macro/micro) adjacent
indices share the weight. -/

/-- LDL bands: <100, 100-129, 130-159, 160-189, ≥190. -/
def CardiovascularRiskModel.ldlBand (v : ℚ) : ℕ :=
  if 190 ≤ v then 4 else if 160 ≤ v then 3 else if 130 ≤ v then 2
  else if 100 ≤ v then 1 else 0

/-- HDL bands: ≥60 (bonus −5), threshold..60 (+10), below threshold (+25). -/
def CardiovascularRiskModel.hdlBand (gender : Option ℚ) (v : ℚ) : ℕ :=
  if v < (if gender = some 2 then 50 else 40) then 2 else if v < 60 then 1 else 0

/-- Triglyceride bands: <150, 150-199, 200-499, ≥500. -/
def CardiovascularRiskModel.tgBand (v : ℚ) : ℕ :=
  if 500 ≤ v then 3 else if 200 ≤ v then 2 else if 150 ≤ v then 1 else 0

/-- TC/HDL-ratio bands: ≤3.5, (3.5,4], (4,5], >5. -/
def CardiovascularRiskModel.tcHdlBand (v : ℚ) : ℕ :=
  if 5 < v then 3 else if 4 < v then 2 else if (3.5 : ℚ) < v then 1 else 0

/-- Fasting-glucose bands: <100, 100-125, ≥126. -/
def MetabolicRiskModel.glucoseBand (v : ℚ) : ℕ :=
  if 126 ≤ v then 2 else if 100 ≤ v then 1 else 0

/-- HbA1c bands: <5.7, 5.7-6.4, ≥6.5. -/
def MetabolicRiskModel.hba1cBand (v : ℚ) : ℕ :=
  if (6.5 : ℚ) ≤ v then 2 else if (5.7 : ℚ) ≤ v then 1 else 0

/-- HOMA-IR bands: <2.5, 2.5-4.9, ≥5. -/
def MetabolicRiskModel.homaBand (v : ℚ) : ℕ :=
  if 5 ≤ v then 2 else if (2.5 : ℚ) ≤ v then 1 else 0

/-- eGFR bands: ≥90, 60-89, 45-59, 30-44, 15-29, <15 (severity descends as
eGFR rises). -/
def RenalRiskModel.egfrBand (v : ℚ) : ℕ :=
  if v < 15 then 5 else if v < 30 then 4 else if v < 45 then 3
  else if v < 60 then 2 else if v < 90 then 1 else 0

/-- ACR bands: <30, 30-299, ≥300. -/
def RenalRiskModel.acrBand (v : ℚ) : ℕ :=
  if 300 ≤ v then 2 else if 30 ≤ v then 1 else 0

/-- AST bands: ≤t, (t,2t], (2t,3t], >3t for the gender threshold t. -/
def HepaticRiskModel.astBand (gender : Option ℚ) (v : ℚ) : ℕ :=
  let t : ℚ := if gender = some 1 then 40 else 32
  if t * 3 < v then 3 else if t * 2 < v then 2 else if t < v then 1 else 0

/-- ALT bands: ≤t, (t,2t], (2t,3t], >3t for the gender threshold t. -/
def HepaticRiskModel.altBand (gender : Option ℚ) (v : ℚ) : ℕ :=
  let t : ℚ := if gender = some 1 then 41 else 33
  if t * 3 < v then 3 else if t * 2 < v then 2 else if t < v then 1 else 0

/-- FIB-4 bands: ≤1.45, (1.45,3.25], >3.25. -/
def HepaticRiskModel.fib4Band (v : ℚ) : ℕ :=
  if (3.25 : ℚ) < v then 2 else if (1.45 : ℚ) < v then 1 else 0

/-- AST/ALT-ratio bands: ≤1, (1,2], >2. -/
def HepaticRiskModel.ratioBand (v : ℚ) : ℕ :=
  if 2 < v then 2 else if 1 < v then 1 else 0

/-- Albumin bands: ≥3.5, <3.5. -/
def HepaticRiskModel.albuminBand (v : ℚ) : ℕ :=
  if v < (3.5 : ℚ) then 1 else 0

/-- Bilirubin bands: ≤1.2, >1.2. -/
def HepaticRiskModel.bilirubinBand (v : ℚ) : ℕ :=
  if (1.2 : ℚ) < v then 1 else 0

/-- Hemoglobin bands for gender threshold t: normal, polycythemia (>18),
mild (<t), moderate (<t−2), severe (<t−3). -/
def HematologicRiskModel.hgbBand (gender : Option ℚ) (v : ℚ) : ℕ :=
  let t : ℚ := if gender = some 2 then 12 else 13
  if v < t - 3 then 4 else if v < t - 2 then 3 else if v < t then 2
  else if 18 < v then 1 else 0

/-- WBC bands by weight: normal, mild high (>11, +10), mild low (<4, +12),
severe high (>15, +25), severe low (<3, +25). -/
def HematologicRiskModel.wbcBand (v : ℚ) : ℕ :=
  if v < 3 then 4 else if 15 < v then 3 else if v < 4 then 2 else if 11 < v then 1 else 0

/-- Platelet bands by weight: normal, mild low (<150, +10), high (>450, +15),
moderate low (<100, +20), severe low (<50, +25). -/
def HematologicRiskModel.pltBand (v : ℚ) : ℕ :=
  if v < 50 then 4 else if v < 100 then 3 else if 450 < v then 2
  else if v < 150 then 1 else 0

/-- MCV bands by weight: normal, macrocytic (>100, +5), microcytic (<80, +5),
severe microcytic (<70, +10). -/
def HematologicRiskModel.mcvBand (v : ℚ) : ℕ :=
  if v < 70 then 3 else if v < 80 then 2 else if 100 < v then 1 else 0

/-- The composite result of the all-missing record under the empty (all
defaults) configuration. -/
def emptyResult : CompositeRiskModel.CompositeResult :=
  { composite_score := 0, risk_level := "CRITICAL", risk_label := "要精査",
    domain_scores :=
      { cardiovascular := 0, metabolic := 0, renal := 0, hepatic := 0, hematologic := 0 },
    alerts := [], modifiable_factors := [], age_adjusted_percentile := 0,
    age_multiplier := 1, multi_domain_penalty_applied := false }

/-! ## Basic lemmas about rounding and clamping -/

theorem le_pyRound (x : ℚ) : ⌊x⌋ ≤ pyRound x := by
  unfold pyRound
  split_ifs <;> omega

theorem pyRound_le (x : ℚ) : pyRound x ≤ ⌊x⌋ + 1 := by
  unfold pyRound
  split_ifs <;> omega

theorem pyRound_intCast (n : ℤ) : pyRound (n : ℚ) = n := by
  unfold pyRound
  rw [Int.floor_intCast]
  norm_num

theorem pyRound_mono {x y : ℚ} (h : x ≤ y) : pyRound x ≤ pyRound y := by
  have hf : ⌊x⌋ ≤ ⌊y⌋ := Int.floor_le_floor h
  rcases lt_or_eq_of_le hf with hlt | heq
  · calc pyRound x ≤ ⌊x⌋ + 1 := pyRound_le x
      _ ≤ ⌊y⌋ := by omega
      _ ≤ pyRound y := le_pyRound y
  · unfold pyRound
    rw [heq]
    split_ifs <;> first | omega | (exfalso; linarith)

theorem round1_mono {x y : ℚ} (h : x ≤ y) : round1 x ≤ round1 y := by
  unfold round1
  have : pyRound (10 * x) ≤ pyRound (10 * y) := pyRound_mono (by linarith)
  have hc : ((pyRound (10 * x) : ℚ)) ≤ ((pyRound (10 * y) : ℚ)) := by exact_mod_cast this
  linarith

theorem round1_round1 (x : ℚ) : round1 (round1 x) = round1 x := by
  unfold round1
  have h : (10 : ℚ) * ((pyRound (10 * x) : ℚ) / 10) = ((pyRound (10 * x) : ℚ)) := by ring
  rw [h, pyRound_intCast]

theorem clamp01_mono {x y : ℚ} (h : x ≤ y) : clamp01 x ≤ clamp01 y :=
  max_le_max le_rfl (min_le_min h le_rfl)

theorem round1_zero : round1 0 = 0 := by
  unfold round1
  have h : (10 : ℚ) * 0 = ((0 : ℤ) : ℚ) := by norm_num
  rw [h, pyRound_intCast]
  norm_num

theorem round1_hundred : round1 100 = 100 := by
  unfold round1
  have h : (10 : ℚ) * 100 = ((1000 : ℤ) : ℚ) := by norm_num
  rw [h, pyRound_intCast]
  norm_num

/-- Rounding the clamped value stays in [0, 100] and is a fixed point of
one-decimal rounding. -/
theorem round1_clamp01_mem (x : ℚ) :
    0 ≤ round1 (clamp01 x) ∧ round1 (clamp01 x) ≤ 100
      ∧ round1 (round1 (clamp01 x)) = round1 (clamp01 x) := by
  have h0 : (0 : ℚ) ≤ clamp01 x := le_max_left _ _
  have h100 : clamp01 x ≤ 100 := max_le (by norm_num) (min_le_right _ _)
  refine ⟨?_, ?_, round1_round1 _⟩
  · have := round1_mono h0
    rwa [round1_zero] at this
  · have := round1_mono h100
    rwa [round1_hundred] at this

/-! ## Monotonicity of the age multipliers (all multipliers are positive) -/

theorem cvAgeAdjust_mono (age : Option ℚ) {s t : ℚ} (h : s ≤ t) :
    CardiovascularRiskModel.ageAdjust age s ≤ CardiovascularRiskModel.ageAdjust age t := by
  rcases age with _ | a
  · simpa [CardiovascularRiskModel.ageAdjust] using h
  · simp only [CardiovascularRiskModel.ageAdjust]
    split_ifs <;> linarith

theorem metAgeAdjust_mono (age : Option ℚ) {s t : ℚ} (h : s ≤ t) :
    MetabolicRiskModel.ageAdjust age s ≤ MetabolicRiskModel.ageAdjust age t := by
  rcases age with _ | a
  · simpa [MetabolicRiskModel.ageAdjust] using h
  · simp only [MetabolicRiskModel.ageAdjust]
    split_ifs <;> linarith

theorem renalAgeAdjust_mono (age : Option ℚ) {s t : ℚ} (h : s ≤ t) :
    RenalRiskModel.ageAdjust age s ≤ RenalRiskModel.ageAdjust age t := by
  rcases age with _ | a
  · simpa [RenalRiskModel.ageAdjust] using h
  · simp only [RenalRiskModel.ageAdjust]
    split_ifs <;> linarith

theorem hepAgeAdjust_mono (age : Option ℚ) {s t : ℚ} (h : s ≤ t) :
    HepaticRiskModel.ageAdjust age s ≤ HepaticRiskModel.ageAdjust age t := by
  rcases age with _ | a
  · simpa [HepaticRiskModel.ageAdjust] using h
  · simp only [HepaticRiskModel.ageAdjust]
    split_ifs <;> linarith

theorem hemaAgeAdjust_mono (age : Option ℚ) {s t : ℚ} (h : s ≤ t) :
    HematologicRiskModel.ageAdjust age s ≤ HematologicRiskModel.ageAdjust age t := by
  rcases age with _ | a
  · simpa [HematologicRiskModel.ageAdjust] using h
  · simp only [HematologicRiskModel.ageAdjust]
    split_ifs <;> linarith

/-! ## C1 -/

/-- C1: every one of the five domain scorers returns a value in [0, 100] that
is a fixed point of one-decimal rounding, for every record (all markers
optional, including the all-missing record); the clamp to [0, 100] is applied
after the age multiplier, so the cardiovascular score of a record whose only
marker is a protective HDL = 70 with age 30 (accumulator −5, ×0.8 = −4) is
clamped to 0. -/
theorem C1_domain_scores_bounded :
    (∀ p : Patient,
      (0 ≤ CardiovascularRiskModel.calculate_score p
        ∧ CardiovascularRiskModel.calculate_score p ≤ 100
        ∧ round1 (CardiovascularRiskModel.calculate_score p)
            = CardiovascularRiskModel.calculate_score p)
      ∧ (0 ≤ MetabolicRiskModel.calculate_score p
        ∧ MetabolicRiskModel.calculate_score p ≤ 100
        ∧ round1 (MetabolicRiskModel.calculate_score p)
            = MetabolicRiskModel.calculate_score p)
      ∧ (0 ≤ RenalRiskModel.calculate_score p
        ∧ RenalRiskModel.calculate_score p ≤ 100
        ∧ round1 (RenalRiskModel.calculate_score p) = RenalRiskModel.calculate_score p)
      ∧ (0 ≤ HepaticRiskModel.calculate_score p
        ∧ HepaticRiskModel.calculate_score p ≤ 100
        ∧ round1 (HepaticRiskModel.calculate_score p) = HepaticRiskModel.calculate_score p)
      ∧ (0 ≤ HematologicRiskModel.calculate_score p
        ∧ HematologicRiskModel.calculate_score p ≤ 100
        ∧ round1 (HematologicRiskModel.calculate_score p)
            = HematologicRiskModel.calculate_score p))
    ∧ CardiovascularRiskModel.calculate_score { RIDAGEYR := some 30, LBDHDD := some 70 } = 0 := by
  constructor
  · intro p
    refine ⟨?_, ?_, ?_, ?_, ?_⟩
    · unfold CardiovascularRiskModel.calculate_score
      exact round1_clamp01_mem _
    · unfold MetabolicRiskModel.calculate_score
      exact round1_clamp01_mem _
    · unfold RenalRiskModel.calculate_score
      exact round1_clamp01_mem _
    · unfold HepaticRiskModel.calculate_score
      exact round1_clamp01_mem _
    · unfold HematologicRiskModel.calculate_score
      exact round1_clamp01_mem _
  · simp [CardiovascularRiskModel.calculate_score, CardiovascularRiskModel.ldlScore,
      CardiovascularRiskModel.hdlScore, CardiovascularRiskModel.tgScore,
      CardiovascularRiskModel.tcHdlScore, CardiovascularRiskModel.ageAdjust,
      clamp01, round1, pyRound]
    norm_num [Int.even_iff, Int.fract]

/-! ## C2 -/

/-- C2: the alerts list of `calculate_composite_score` holds exactly one alert
for domain D iff the score of that domain is at least 60; the severity of each alert is
CRITICAL iff the domain score is at least 80, HIGH otherwise; and the alerts
appear in the fixed order cardiovascular, metabolic, renal, hepatic,
hematologic. -/
theorem C2_alert_invariant :
    ∀ p : Patient,
      ((CompositeRiskModel.generate_alerts (CompositeRiskModel.domainScores p) p).map
          CompositeRiskModel.Alert.domain_key
        = CompositeRiskModel.domainOrder.filter
            (fun k => 60 ≤ (CompositeRiskModel.domainScores p).get k))
      ∧ (∀ a ∈ CompositeRiskModel.generate_alerts (CompositeRiskModel.domainScores p) p,
          a.severity =
            if 80 ≤ (CompositeRiskModel.domainScores p).get a.domain_key then "CRITICAL"
            else "HIGH")
      ∧ (∀ (cfg : Config) (r : CompositeRiskModel.CompositeResult),
          CompositeRiskModel.calculate_composite_score cfg p = some r →
            r.alerts = CompositeRiskModel.generate_alerts (CompositeRiskModel.domainScores p) p) := by
  intro p
  set ds := CompositeRiskModel.domainScores p with hds
  refine ⟨?_, ?_, ?_⟩
  · by_cases h1 : 60 ≤ ds.cardiovascular <;>
      by_cases h2 : 60 ≤ ds.metabolic <;>
      by_cases h3 : 60 ≤ ds.renal <;>
      by_cases h4 : 60 ≤ ds.hepatic <;>
      by_cases h5 : 60 ≤ ds.hematologic <;>
      simp [CompositeRiskModel.generate_alerts, CompositeRiskModel.domainOrder,
        CompositeRiskModel.DomainScores.get, List.filter, h1, h2, h3, h4, h5]
  · intro a ha
    have hone : ∀ (c : Prop) (inst : Decidable c) (x : CompositeRiskModel.Alert),
        a ∈ (@ite _ c inst [x] []) → a = x := by
      intro c inst x hx
      split at hx
      · simpa using hx
      · simp at hx
    simp only [CompositeRiskModel.generate_alerts, List.mem_append] at ha
    rcases ha with (((ha | ha) | ha) | ha) | ha <;>
      rw [hone _ _ _ ha] <;>
      simp [CompositeRiskModel.DomainScores.get]
  · intro cfg r h
    unfold CompositeRiskModel.calculate_composite_score at h
    dsimp only at h
    rcases hw : CompositeRiskModel.weightedSum (cfg.risk_weights.getD defaultWeights)
        (CompositeRiskModel.domainScores p) with _ | w
    · rw [hw] at h
      exact absurd h (by simp)
    · rw [hw] at h
      dsimp only at h
      rw [Option.some_inj] at h
      rw [← h]

/-- The five domain scores of the all-missing record are all zero. -/
theorem domainScores_empty :
    CompositeRiskModel.domainScores {} =
      { cardiovascular := 0, metabolic := 0, renal := 0, hepatic := 0, hematologic := 0 } := by
  unfold CompositeRiskModel.domainScores
  simp only [CompositeRiskModel.DomainScores.mk.injEq]
  refine ⟨?_, ?_, ?_, ?_, ?_⟩
  · simp [CardiovascularRiskModel.calculate_score, CardiovascularRiskModel.ldlScore,
      CardiovascularRiskModel.hdlScore, CardiovascularRiskModel.tgScore,
      CardiovascularRiskModel.tcHdlScore, CardiovascularRiskModel.ageAdjust,
      clamp01, round1, pyRound]
  · simp [MetabolicRiskModel.calculate_score, MetabolicRiskModel.glucoseScore,
      MetabolicRiskModel.hba1cScore, MetabolicRiskModel.homaScore,
      MetabolicRiskModel.ageAdjust, clamp01, round1, pyRound]
  · simp [RenalRiskModel.calculate_score, RenalRiskModel.egfrScore, RenalRiskModel.acrScore,
      RenalRiskModel.ageAdjust, clamp01, round1, pyRound]
  · simp [HepaticRiskModel.calculate_score, HepaticRiskModel.astScore, HepaticRiskModel.altScore,
      HepaticRiskModel.fib4Score, HepaticRiskModel.ratioScore, HepaticRiskModel.albuminScore,
      HepaticRiskModel.bilirubinScore, HepaticRiskModel.ageAdjust, clamp01, round1, pyRound]
  · simp [HematologicRiskModel.calculate_score, HematologicRiskModel.hgbScore,
      HematologicRiskModel.wbcScore, HematologicRiskModel.pltScore,
      HematologicRiskModel.mcvScore, HematologicRiskModel.ageAdjust, clamp01, round1, pyRound]

/-- Evaluation of the composite scorer on the empty record and empty config. -/
theorem calc_empty_eval :
    CompositeRiskModel.calculate_composite_score {} {} = some emptyResult := by
  unfold CompositeRiskModel.calculate_composite_score
  dsimp only
  rw [domainScores_empty]
  norm_num [CompositeRiskModel.weightedSum, defaultWeights, CompositeRiskModel.ageMultiplier,
    CompositeRiskModel.minDomains, CompositeRiskModel.highRiskCount,
    CompositeRiskModel.highRiskThreshold, CompositeRiskModel.penaltyMultiplier,
    CompositeRiskModel.DomainScores.toList, CompositeRiskModel.classify_risk,
    CompositeRiskModel.generate_alerts, CompositeRiskModel.identify_modifiable_factors,
    CompositeRiskModel.calculate_percentile, pyInt, round1, pyRound, Int.even_iff,
    List.filter, emptyResult, Int.fract]

/-- Witness for C2 at the empty record and empty configuration. -/
theorem C2_alert_invariant_witness :
    emptyResult.alerts
      = CompositeRiskModel.generate_alerts (CompositeRiskModel.domainScores {}) {} :=
  (C2_alert_invariant {}).2.2 {} emptyResult calc_empty_eval

/-! ## C3 -/

/-- C3: the multi-domain penalty counts domains whose unweighted score
strictly exceeds the configured threshold (default 70); iff that count reaches
`min_domains` (default 2) the weighted age-adjusted composite is multiplied by
`multiplier` (default 1.15) and clamped to 100 inside this step, before the
final global clamp, and the returned `multi_domain_penalty_applied` flag is
true exactly in that case. -/
theorem C3_multi_domain_penalty :
    ∀ (cfg : Config) (p : Patient) (r : CompositeRiskModel.CompositeResult),
      CompositeRiskModel.calculate_composite_score cfg p = some r →
        (r.multi_domain_penalty_applied = true ↔
          CompositeRiskModel.minDomains cfg ≤
            ((CompositeRiskModel.domainScores p).toList.filter
              (fun s => CompositeRiskModel.highRiskThreshold cfg < s)).length)
        ∧ ∃ c, CompositeRiskModel.weightedAgeAdjusted cfg p = some c
          ∧ r.composite_score = round1 (clamp01
              (if CompositeRiskModel.minDomains cfg ≤
                  ((CompositeRiskModel.domainScores p).toList.filter
                    (fun s => CompositeRiskModel.highRiskThreshold cfg < s)).length
                then min (c * CompositeRiskModel.penaltyMultiplier cfg) 100
                else c)) := by
  intro cfg p r h
  unfold CompositeRiskModel.calculate_composite_score at h
  dsimp only at h
  rcases hw : CompositeRiskModel.weightedSum (cfg.risk_weights.getD defaultWeights)
      (CompositeRiskModel.domainScores p) with _ | w
  · rw [hw] at h
    exact absurd h (by simp)
  · rw [hw] at h
    dsimp only at h
    rw [Option.some_inj] at h
    constructor
    · rw [← h]
      simp [CompositeRiskModel.highRiskCount]
    · refine ⟨w * CompositeRiskModel.ageMultiplier p.RIDAGEYR, ?_, ?_⟩
      · unfold CompositeRiskModel.weightedAgeAdjusted
        rw [hw]
        rfl
      · rw [← h]
        simp only [CompositeRiskModel.highRiskCount, clamp01]

/-- Witness for C3 at the empty record and empty configuration. -/
theorem C3_multi_domain_penalty_witness :
    (emptyResult.multi_domain_penalty_applied = true ↔
      CompositeRiskModel.minDomains {} ≤
        ((CompositeRiskModel.domainScores {}).toList.filter
          (fun s => CompositeRiskModel.highRiskThreshold {} < s)).length)
    ∧ ∃ c, CompositeRiskModel.weightedAgeAdjusted {} {} = some c
      ∧ emptyResult.composite_score = round1 (clamp01
          (if CompositeRiskModel.minDomains {} ≤
              ((CompositeRiskModel.domainScores {}).toList.filter
                (fun s => CompositeRiskModel.highRiskThreshold {} < s)).length
            then min (c * CompositeRiskModel.penaltyMultiplier {}) 100
            else c)) :=
  C3_multi_domain_penalty {} {} emptyResult calc_empty_eval

/-! ## C4 -/

/-- The for-loop of `_classify_risk` is first-match search over the configured
bands, with the most severe default when no band contains the score. -/
theorem classify_risk_eq_find (ls : List RiskLevel) (s : ℚ) :
    CompositeRiskModel.classify_risk ls s =
      ((ls.find? (fun lv => decide (lv.rangeMin ≤ s ∧ s < lv.rangeMax))).map
        (fun lv => (lv.severity, lv.label))).getD ("CRITICAL", "要精査") := by
  induction ls with
  | nil => rfl
  | cons lv rest ih =>
    unfold CompositeRiskModel.classify_risk
    rw [List.find?_cons]
    by_cases hc : lv.rangeMin ≤ s ∧ s < lv.rangeMax
    · simp [hc]
    · simp [hc, ih]

/-- C4: risk level and label are classified from the clamped-but-unrounded
composite; the first configured band whose [min, max) range contains the score
wins, and when no band contains it (e.g. score exactly 100 under bands capped
at 100, or an empty table) the classification defaults to
("CRITICAL", "要精査").  The returned composite_score is the rounding of the
same clamped value. -/
theorem C4_classification :
    ∀ (cfg : Config) (p : Patient) (r : CompositeRiskModel.CompositeResult),
      CompositeRiskModel.calculate_composite_score cfg p = some r →
        ∃ s, CompositeRiskModel.compositeRaw cfg p = some s
          ∧ (r.risk_level, r.risk_label) = CompositeRiskModel.classify_risk cfg.risk_levels s
          ∧ r.composite_score = round1 s
          ∧ CompositeRiskModel.classify_risk cfg.risk_levels s =
              ((cfg.risk_levels.find? (fun lv => decide (lv.rangeMin ≤ s ∧ s < lv.rangeMax))).map
                (fun lv => (lv.severity, lv.label))).getD ("CRITICAL", "要精査")
          ∧ ((∀ lv ∈ cfg.risk_levels, ¬(lv.rangeMin ≤ s ∧ s < lv.rangeMax)) →
              (r.risk_level, r.risk_label) = ("CRITICAL", "要精査")) := by
  intro cfg p r h
  unfold CompositeRiskModel.calculate_composite_score at h
  dsimp only at h
  rcases hw : CompositeRiskModel.weightedSum (cfg.risk_weights.getD defaultWeights)
      (CompositeRiskModel.domainScores p) with _ | w
  · rw [hw] at h
    exact absurd h (by simp)
  · rw [hw] at h
    dsimp only at h
    rw [Option.some_inj] at h
    have hcr : CompositeRiskModel.compositeRaw cfg p
        = some (max 0 (min
            (if CompositeRiskModel.minDomains cfg ≤
                CompositeRiskModel.highRiskCount cfg (CompositeRiskModel.domainScores p)
              then min (w * CompositeRiskModel.ageMultiplier p.RIDAGEYR
                  * CompositeRiskModel.penaltyMultiplier cfg) 100
              else w * CompositeRiskModel.ageMultiplier p.RIDAGEYR) 100)) := by
      unfold CompositeRiskModel.compositeRaw CompositeRiskModel.weightedAgeAdjusted
      rw [hw]
      rfl
    refine ⟨_, hcr, ?_, ?_, classify_risk_eq_find _ _, ?_⟩
    · rw [← h]
    · rw [← h]
    · intro hnone
      rw [← h]
      dsimp only
      rw [classify_risk_eq_find, List.find?_eq_none.mpr]
      · rfl
      · intro lv hlv
        simpa using hnone lv hlv

/-- Witness for C4: the empty configuration has no bands, so the default
classification is returned. -/
theorem C4_classification_witness :
    (emptyResult.risk_level, emptyResult.risk_label) = ("CRITICAL", "要精査") := by
  obtain ⟨s, _, _, _, _, h5⟩ := C4_classification {} {} emptyResult calc_empty_eval
  refine h5 ?_
  intro lv hlv
  simp at hlv

/-! ## C5 -/

theorem hdlScore_gender {g : Option ℚ} (h : g ≠ some 2) (o : Option ℚ) :
    CardiovascularRiskModel.hdlScore g o = CardiovascularRiskModel.hdlScore (some 1) o := by
  cases o with
  | none => rfl
  | some v =>
    simp only [CardiovascularRiskModel.hdlScore]
    rw [if_neg h, if_neg (by simp : ¬(some (1 : ℚ) = some 2))]

theorem hdlFactor_gender {g : Option ℚ} (h : g ≠ some 2) (o : Option ℚ) :
    CardiovascularRiskModel.hdlFactor g o = CardiovascularRiskModel.hdlFactor (some 1) o := by
  cases o with
  | none => rfl
  | some v =>
    simp only [CardiovascularRiskModel.hdlFactor]
    rw [if_neg h, if_neg (by simp : ¬(some (1 : ℚ) = some 2))]

theorem hgbScore_gender {g : Option ℚ} (h : g ≠ some 2) (o : Option ℚ) :
    HematologicRiskModel.hgbScore g o = HematologicRiskModel.hgbScore (some 1) o := by
  cases o with
  | none => rfl
  | some v =>
    simp only [HematologicRiskModel.hgbScore]
    rw [if_neg h, if_neg (by simp : ¬(some (1 : ℚ) = some 2))]

theorem hgbFactor_gender {g : Option ℚ} (h : g ≠ some 2) (o : Option ℚ) :
    HematologicRiskModel.hgbFactor g o = HematologicRiskModel.hgbFactor (some 1) o := by
  cases o with
  | none => rfl
  | some v =>
    simp only [HematologicRiskModel.hgbFactor]
    rw [if_neg h, if_neg (by simp : ¬(some (1 : ℚ) = some 2))]

theorem creatinineFactor_gender {g : Option ℚ} (h : g ≠ some 2) (o : Option ℚ) :
    RenalRiskModel.creatinineFactor g o = RenalRiskModel.creatinineFactor (some 1) o := by
  cases o with
  | none => rfl
  | some v =>
    simp only [RenalRiskModel.creatinineFactor]
    rw [if_neg h, if_neg (by simp : ¬(some (1 : ℚ) = some 2))]

theorem astScore_gender {g : Option ℚ} (h : g ≠ some 1) (o : Option ℚ) :
    HepaticRiskModel.astScore g o = HepaticRiskModel.astScore (some 2) o := by
  cases o with
  | none => rfl
  | some v =>
    simp only [HepaticRiskModel.astScore]
    rw [if_neg h, if_neg (by simp : ¬(some (2 : ℚ) = some 1))]

theorem altScore_gender {g : Option ℚ} (h : g ≠ some 1) (o : Option ℚ) :
    HepaticRiskModel.altScore g o = HepaticRiskModel.altScore (some 2) o := by
  cases o with
  | none => rfl
  | some v =>
    simp only [HepaticRiskModel.altScore]
    rw [if_neg h, if_neg (by simp : ¬(some (2 : ℚ) = some 1))]

theorem astFactor_gender {g : Option ℚ} (h : g ≠ some 1) (o : Option ℚ) :
    HepaticRiskModel.astFactor g o = HepaticRiskModel.astFactor (some 2) o := by
  cases o with
  | none => rfl
  | some v =>
    simp only [HepaticRiskModel.astFactor]
    rw [if_neg h, if_neg (by simp : ¬(some (2 : ℚ) = some 1))]

theorem altFactor_gender {g : Option ℚ} (h : g ≠ some 1) (o : Option ℚ) :
    HepaticRiskModel.altFactor g o = HepaticRiskModel.altFactor (some 2) o := by
  cases o with
  | none => rfl
  | some v =>
    simp only [HepaticRiskModel.altFactor]
    rw [if_neg h, if_neg (by simp : ¬(some (2 : ℚ) = some 1))]

/-- C5 counterexample: for a missing gender the hepatic scorer uses the female
AST threshold 32, not the male set (AST = 35 contributes 8, while the male
threshold 40 would contribute 0). -/
theorem C5_counterexample :
    HepaticRiskModel.calculate_score { LBXSASSI := some 35 } = 8
      ∧ HepaticRiskModel.calculate_score { RIAGENDR := some 1, LBXSASSI := some 35 } = 0 := by
  constructor <;>
    · simp [HepaticRiskModel.calculate_score, HepaticRiskModel.astScore,
        HepaticRiskModel.altScore, HepaticRiskModel.fib4Score, HepaticRiskModel.ratioScore,
        HepaticRiskModel.albuminScore, HepaticRiskModel.bilirubinScore,
        HepaticRiskModel.ageAdjust, clamp01, round1, pyRound]
      norm_num [Int.even_iff, Int.fract]

/-- C5 amended: a missing or unrecognised gender code behaves like the male
threshold set for the markers whose source tests `gender == 2` (HDL,
hemoglobin, creatinine, and the modifiable-factor HDL check), but like the
FEMALE threshold set (32/33) for hepatic AST/ALT, whose source tests
`gender == 1`; `classify_anemia_type` returns no classification at all when
gender is missing, and behaves like male for an unrecognised numeric code. -/
theorem C5_gender_default_amended :
    (∀ (p : Patient) (g : Option ℚ), g ≠ some 2 →
      CardiovascularRiskModel.calculate_score { p with RIAGENDR := g }
        = CardiovascularRiskModel.calculate_score { p with RIAGENDR := some 1 }
      ∧ CardiovascularRiskModel.identify_risk_factors { p with RIAGENDR := g }
        = CardiovascularRiskModel.identify_risk_factors { p with RIAGENDR := some 1 }
      ∧ HematologicRiskModel.calculate_score { p with RIAGENDR := g }
        = HematologicRiskModel.calculate_score { p with RIAGENDR := some 1 }
      ∧ HematologicRiskModel.identify_risk_factors { p with RIAGENDR := g }
        = HematologicRiskModel.identify_risk_factors { p with RIAGENDR := some 1 }
      ∧ RenalRiskModel.identify_risk_factors { p with RIAGENDR := g }
        = RenalRiskModel.identify_risk_factors { p with RIAGENDR := some 1 }
      ∧ CompositeRiskModel.identify_modifiable_factors { p with RIAGENDR := g }
        = CompositeRiskModel.identify_modifiable_factors { p with RIAGENDR := some 1 })
    ∧ (∀ (p : Patient) (g : Option ℚ), g ≠ some 1 →
      HepaticRiskModel.calculate_score { p with RIAGENDR := g }
        = HepaticRiskModel.calculate_score { p with RIAGENDR := some 2 }
      ∧ HepaticRiskModel.identify_risk_factors { p with RIAGENDR := g }
        = HepaticRiskModel.identify_risk_factors { p with RIAGENDR := some 2 })
    ∧ (∀ p : Patient,
        HematologicRiskModel.classify_anemia_type { p with RIAGENDR := none } = none)
    ∧ (∀ (p : Patient) (v : ℚ), v ≠ 2 →
        HematologicRiskModel.classify_anemia_type { p with RIAGENDR := some v }
          = HematologicRiskModel.classify_anemia_type { p with RIAGENDR := some 1 }) := by
  refine ⟨?_, ?_, ?_, ?_⟩
  · intro p g hg
    refine ⟨?_, ?_, ?_, ?_, ?_, ?_⟩
    · simp only [CardiovascularRiskModel.calculate_score]
      rw [hdlScore_gender hg]
    · simp only [CardiovascularRiskModel.identify_risk_factors]
      rw [hdlFactor_gender hg]
    · simp only [HematologicRiskModel.calculate_score]
      rw [hgbScore_gender hg]
    · simp only [HematologicRiskModel.identify_risk_factors]
      rw [hgbFactor_gender hg]
    · simp only [RenalRiskModel.identify_risk_factors]
      rw [creatinineFactor_gender hg]
    · simp only [CompositeRiskModel.identify_modifiable_factors]
      rw [if_neg hg, if_neg (by simp : ¬(some (1 : ℚ) = some 2))]
  · intro p g hg
    constructor
    · simp only [HepaticRiskModel.calculate_score]
      rw [astScore_gender hg, altScore_gender hg]
    · simp only [HepaticRiskModel.identify_risk_factors]
      rw [astFactor_gender hg, altFactor_gender hg]
  · intro p
    cases hh : p.LBXHGB <;> simp [HematologicRiskModel.classify_anemia_type, hh]
  · intro p v hv
    cases hh : p.LBXHGB with
    | none => simp [HematologicRiskModel.classify_anemia_type, hh]
    | some hgb =>
      simp only [HematologicRiskModel.classify_anemia_type, hh]
      rw [if_neg hv, if_neg (by norm_num : ¬((1 : ℚ) = 2))]

/-- Witness for C5 at the empty record with missing gender. -/
theorem C5_gender_default_witness :
    (none : Option ℚ) ≠ some 2
      ∧ CardiovascularRiskModel.calculate_score { ({} : Patient) with RIAGENDR := none }
          = CardiovascularRiskModel.calculate_score { ({} : Patient) with RIAGENDR := some 1 }
      ∧ HepaticRiskModel.calculate_score { ({} : Patient) with RIAGENDR := none }
          = HepaticRiskModel.calculate_score { ({} : Patient) with RIAGENDR := some 2 } :=
  ⟨by simp,
    (C5_gender_default_amended.1 {} none (by simp)).1,
    (C5_gender_default_amended.2.1 {} none (by simp)).1⟩

/-! ## C6 -/

theorem marker_mem_append {M : String} {l1 l2 : List RiskFactor} :
    (∃ rf ∈ l1 ++ l2, rf.marker = M)
      ↔ (∃ rf ∈ l1, rf.marker = M) ∨ (∃ rf ∈ l2, rf.marker = M) := by
  constructor
  · rintro ⟨rf, hm, he⟩
    rcases List.mem_append.mp hm with h | h
    · exact Or.inl ⟨rf, h, he⟩
    · exact Or.inr ⟨rf, h, he⟩
  · rintro (⟨rf, hm, he⟩ | ⟨rf, hm, he⟩)
    · exact ⟨rf, List.mem_append.mpr (Or.inl hm), he⟩
    · exact ⟨rf, List.mem_append.mpr (Or.inr hm), he⟩

theorem ldlFactor_marker {o : Option ℚ} {rf : RiskFactor}
    (h : rf ∈ CardiovascularRiskModel.ldlFactor o) : rf.marker = "LDL cholesterol" := by
  cases o with
  | none => simp [CardiovascularRiskModel.ldlFactor] at h
  | some v =>
    simp only [CardiovascularRiskModel.ldlFactor] at h
    split_ifs at h <;> simp_all

theorem hdlFactor_marker {g o : Option ℚ} {rf : RiskFactor}
    (h : rf ∈ CardiovascularRiskModel.hdlFactor g o) : rf.marker = "HDL cholesterol" := by
  cases o with
  | none => simp [CardiovascularRiskModel.hdlFactor] at h
  | some v =>
    simp only [CardiovascularRiskModel.hdlFactor] at h
    split_ifs at h <;> simp_all

theorem tgFactor_marker {o : Option ℚ} {rf : RiskFactor}
    (h : rf ∈ CardiovascularRiskModel.tgFactor o) : rf.marker = "Triglycerides" := by
  cases o with
  | none => simp [CardiovascularRiskModel.tgFactor] at h
  | some v =>
    simp only [CardiovascularRiskModel.tgFactor] at h
    split_ifs at h <;> simp_all

theorem ratioFactor_marker {o : Option ℚ} {rf : RiskFactor}
    (h : rf ∈ CardiovascularRiskModel.ratioFactor o) : rf.marker = "TC/HDL ratio" := by
  cases o with
  | none => simp [CardiovascularRiskModel.ratioFactor] at h
  | some v =>
    simp only [CardiovascularRiskModel.ratioFactor] at h
    split_ifs at h <;> simp_all

theorem mem_ldlFactor_iff (o : Option ℚ) :
    (∃ rf ∈ CardiovascularRiskModel.ldlFactor o, rf.marker = "LDL cholesterol")
      ↔ ∃ v, o = some v ∧ 130 ≤ v := by
  cases o with
  | none => simp [CardiovascularRiskModel.ldlFactor]
  | some v =>
    simp only [CardiovascularRiskModel.ldlFactor]
    split_ifs with h1 h2 h3 <;> simp <;> first | linarith | (intro; linarith)

theorem mem_hdlFactor_iff (g o : Option ℚ) :
    (∃ rf ∈ CardiovascularRiskModel.hdlFactor g o, rf.marker = "HDL cholesterol")
      ↔ ∃ v, o = some v ∧ v < (if g = some 2 then 50 else 40) := by
  cases o with
  | none => simp [CardiovascularRiskModel.hdlFactor]
  | some v =>
    simp only [CardiovascularRiskModel.hdlFactor]
    split_ifs with h1 <;> simp_all

theorem mem_tgFactor_iff (o : Option ℚ) :
    (∃ rf ∈ CardiovascularRiskModel.tgFactor o, rf.marker = "Triglycerides")
      ↔ ∃ v, o = some v ∧ 200 ≤ v := by
  cases o with
  | none => simp [CardiovascularRiskModel.tgFactor]
  | some v =>
    simp only [CardiovascularRiskModel.tgFactor]
    split_ifs with h1 h2 <;> simp <;> first | linarith | (intro; linarith)

theorem mem_ratioFactor_iff (o : Option ℚ) :
    (∃ rf ∈ CardiovascularRiskModel.ratioFactor o, rf.marker = "TC/HDL ratio")
      ↔ ∃ v, o = some v ∧ 5 < v := by
  cases o with
  | none => simp [CardiovascularRiskModel.ratioFactor]
  | some v =>
    simp only [CardiovascularRiskModel.ratioFactor]
    split_ifs with h1 <;> simp_all

theorem ldlScore_ne_zero {o : Option ℚ} (h : ∃ v, o = some v ∧ 130 ≤ v) :
    CardiovascularRiskModel.ldlScore o ≠ 0 := by
  obtain ⟨v, rfl, hv⟩ := h
  simp only [CardiovascularRiskModel.ldlScore]
  split_ifs <;> first | norm_num | (exfalso; linarith)

theorem hdlScore_ne_zero {g : Option ℚ} {o : Option ℚ}
    (h : ∃ v, o = some v ∧ v < (if g = some 2 then 50 else 40)) :
    CardiovascularRiskModel.hdlScore g o ≠ 0 := by
  obtain ⟨v, rfl, hv⟩ := h
  simp only [CardiovascularRiskModel.hdlScore]
  rw [if_pos hv]
  norm_num

theorem tgScore_ne_zero {o : Option ℚ} (h : ∃ v, o = some v ∧ 200 ≤ v) :
    CardiovascularRiskModel.tgScore o ≠ 0 := by
  obtain ⟨v, rfl, hv⟩ := h
  simp only [CardiovascularRiskModel.tgScore]
  split_ifs <;> first | norm_num | (exfalso; linarith)

theorem tcHdlScore_ne_zero {o : Option ℚ} (h : ∃ v, o = some v ∧ 5 < v) :
    CardiovascularRiskModel.tcHdlScore o ≠ 0 := by
  obtain ⟨v, rfl, hv⟩ := h
  simp only [CardiovascularRiskModel.tcHdlScore]
  split_ifs <;> first | norm_num | (exfalso; linarith)

/-- C6 counterexample: LDL = 110 contributes 12 points to the cardiovascular
score but `identify_risk_factors` lists nothing, so the listed-iff-contributed
mirror fails. -/
theorem C6_counterexample :
    CardiovascularRiskModel.calculate_score { LBDLDL := some 110 } = 12
      ∧ CardiovascularRiskModel.identify_risk_factors { LBDLDL := some 110 } = [] := by
  constructor
  · simp [CardiovascularRiskModel.calculate_score, CardiovascularRiskModel.ldlScore,
      CardiovascularRiskModel.hdlScore, CardiovascularRiskModel.tgScore,
      CardiovascularRiskModel.tcHdlScore, CardiovascularRiskModel.ageAdjust,
      clamp01, round1, pyRound]
    norm_num [Int.even_iff, Int.fract]
  · simp [CardiovascularRiskModel.identify_risk_factors, CardiovascularRiskModel.ldlFactor,
      CardiovascularRiskModel.hdlFactor, CardiovascularRiskModel.tgFactor,
      CardiovascularRiskModel.ratioFactor]
    norm_num

/-- C6 amended: a cardiovascular RiskFactor is listed iff the marker is in the
bands LDL ≥ 130, HDL below the gender threshold, triglycerides ≥ 200, or
TC/HDL ratio > 5; every listed factor corresponds to a non-zero scoring
contribution, but the converse fails (LDL 100–129, HDL at or above the
threshold, triglycerides 150–199 and ratio in (3.5, 5] contribute non-zero
score without being listed). -/
theorem C6_risk_factor_mirror_amended :
    ∀ p : Patient,
      ((∃ rf ∈ CardiovascularRiskModel.identify_risk_factors p, rf.marker = "LDL cholesterol")
        ↔ ∃ v, p.LBDLDL = some v ∧ 130 ≤ v)
      ∧ ((∃ rf ∈ CardiovascularRiskModel.identify_risk_factors p, rf.marker = "HDL cholesterol")
        ↔ ∃ v, p.LBDHDD = some v ∧ v < (if p.RIAGENDR = some 2 then 50 else 40))
      ∧ ((∃ rf ∈ CardiovascularRiskModel.identify_risk_factors p, rf.marker = "Triglycerides")
        ↔ ∃ v, p.LBXTR = some v ∧ 200 ≤ v)
      ∧ ((∃ rf ∈ CardiovascularRiskModel.identify_risk_factors p, rf.marker = "TC/HDL ratio")
        ↔ ∃ v, p.TC_HDL_ratio = some v ∧ 5 < v)
      ∧ ((∃ rf ∈ CardiovascularRiskModel.identify_risk_factors p, rf.marker = "LDL cholesterol")
        → CardiovascularRiskModel.ldlScore p.LBDLDL ≠ 0)
      ∧ ((∃ rf ∈ CardiovascularRiskModel.identify_risk_factors p, rf.marker = "HDL cholesterol")
        → CardiovascularRiskModel.hdlScore p.RIAGENDR p.LBDHDD ≠ 0)
      ∧ ((∃ rf ∈ CardiovascularRiskModel.identify_risk_factors p, rf.marker = "Triglycerides")
        → CardiovascularRiskModel.tgScore p.LBXTR ≠ 0)
      ∧ ((∃ rf ∈ CardiovascularRiskModel.identify_risk_factors p, rf.marker = "TC/HDL ratio")
        → CardiovascularRiskModel.tcHdlScore p.TC_HDL_ratio ≠ 0) := by
  intro p
  have hsplit : ∀ M : String,
      (∃ rf ∈ CardiovascularRiskModel.identify_risk_factors p, rf.marker = M)
        ↔ ((∃ rf ∈ CardiovascularRiskModel.ldlFactor p.LBDLDL, rf.marker = M)
          ∨ (∃ rf ∈ CardiovascularRiskModel.hdlFactor p.RIAGENDR p.LBDHDD, rf.marker = M))
          ∨ ((∃ rf ∈ CardiovascularRiskModel.tgFactor p.LBXTR, rf.marker = M)
          ∨ (∃ rf ∈ CardiovascularRiskModel.ratioFactor p.TC_HDL_ratio, rf.marker = M)) := by
    intro M
    unfold CardiovascularRiskModel.identify_risk_factors
    rw [marker_mem_append, marker_mem_append, marker_mem_append, or_assoc]
  have hldl : (∃ rf ∈ CardiovascularRiskModel.identify_risk_factors p,
      rf.marker = "LDL cholesterol") ↔ ∃ v, p.LBDLDL = some v ∧ 130 ≤ v := by
    rw [hsplit "LDL cholesterol"]
    constructor
    · rintro ((h | h) | (h | h))
      · exact (mem_ldlFactor_iff _).mp h
      · exact absurd (hdlFactor_marker h.choose_spec.1) (by rw [h.choose_spec.2]; decide)
      · exact absurd (tgFactor_marker h.choose_spec.1) (by rw [h.choose_spec.2]; decide)
      · exact absurd (ratioFactor_marker h.choose_spec.1) (by rw [h.choose_spec.2]; decide)
    · intro h
      exact Or.inl (Or.inl ((mem_ldlFactor_iff _).mpr h))
  have hhdl : (∃ rf ∈ CardiovascularRiskModel.identify_risk_factors p,
      rf.marker = "HDL cholesterol")
        ↔ ∃ v, p.LBDHDD = some v ∧ v < (if p.RIAGENDR = some 2 then 50 else 40) := by
    rw [hsplit "HDL cholesterol"]
    constructor
    · rintro ((h | h) | (h | h))
      · exact absurd (ldlFactor_marker h.choose_spec.1) (by rw [h.choose_spec.2]; decide)
      · exact (mem_hdlFactor_iff _ _).mp h
      · exact absurd (tgFactor_marker h.choose_spec.1) (by rw [h.choose_spec.2]; decide)
      · exact absurd (ratioFactor_marker h.choose_spec.1) (by rw [h.choose_spec.2]; decide)
    · intro h
      exact Or.inl (Or.inr ((mem_hdlFactor_iff _ _).mpr h))
  have htg : (∃ rf ∈ CardiovascularRiskModel.identify_risk_factors p,
      rf.marker = "Triglycerides") ↔ ∃ v, p.LBXTR = some v ∧ 200 ≤ v := by
    rw [hsplit "Triglycerides"]
    constructor
    · rintro ((h | h) | (h | h))
      · exact absurd (ldlFactor_marker h.choose_spec.1) (by rw [h.choose_spec.2]; decide)
      · exact absurd (hdlFactor_marker h.choose_spec.1) (by rw [h.choose_spec.2]; decide)
      · exact (mem_tgFactor_iff _).mp h
      · exact absurd (ratioFactor_marker h.choose_spec.1) (by rw [h.choose_spec.2]; decide)
    · intro h
      exact Or.inr (Or.inl ((mem_tgFactor_iff _).mpr h))
  have hratio : (∃ rf ∈ CardiovascularRiskModel.identify_risk_factors p,
      rf.marker = "TC/HDL ratio") ↔ ∃ v, p.TC_HDL_ratio = some v ∧ 5 < v := by
    rw [hsplit "TC/HDL ratio"]
    constructor
    · rintro ((h | h) | (h | h))
      · exact absurd (ldlFactor_marker h.choose_spec.1) (by rw [h.choose_spec.2]; decide)
      · exact absurd (hdlFactor_marker h.choose_spec.1) (by rw [h.choose_spec.2]; decide)
      · exact absurd (tgFactor_marker h.choose_spec.1) (by rw [h.choose_spec.2]; decide)
      · exact (mem_ratioFactor_iff _).mp h
    · intro h
      exact Or.inr (Or.inr ((mem_ratioFactor_iff _).mpr h))
  exact ⟨hldl, hhdl, htg, hratio,
    fun h => ldlScore_ne_zero (hldl.mp h),
    fun h => hdlScore_ne_zero (hhdl.mp h),
    fun h => tgScore_ne_zero (htg.mp h),
    fun h => tcHdlScore_ne_zero (hratio.mp h)⟩

/-- Witness for C6: with LDL = 200 a factor is listed and the LDL
contribution is non-zero. -/
theorem C6_risk_factor_mirror_witness :
    CardiovascularRiskModel.ldlScore ({ LBDLDL := some 200 } : Patient).LBDLDL ≠ 0 :=
  (C6_risk_factor_mirror_amended { LBDLDL := some 200 }).2.2.2.2.1
    ((C6_risk_factor_mirror_amended { LBDLDL := some 200 }).1.mpr ⟨200, rfl, by norm_num⟩)

/-! ## C7 -/

/-- C7 counterexample: constructing every model from a configuration that has
no domain blocks at all succeeds, silently defaulting the stored table to the
empty one, and the composite pipeline still produces a result. -/
theorem C7_counterexample :
    (CardiovascularRiskModel.init {}).thresholds = []
      ∧ (MetabolicRiskModel.init {}).thresholds = []
      ∧ (RenalRiskModel.init {}).thresholds = []
      ∧ (HepaticRiskModel.init {}).thresholds = []
      ∧ (HematologicRiskModel.init {}).thresholds = []
      ∧ (CompositeRiskModel.calculate_composite_score {} {}).isSome = true := by
  refine ⟨rfl, rfl, rfl, rfl, rfl, ?_⟩
  rw [calc_empty_eval]
  rfl

/-- C7 amended: construction never fails.  A supplied configuration that lacks
a domain block constructs the scorer with the empty table (the source stores
`thresholds.get(domain, {})` and none of the scoring methods reads it), and
composite scoring succeeds whenever the `risk_weights` key is absent (the only
failure path is a configured partial weight table, raised during scoring, not
at construction). -/
theorem C7_missing_config_amended :
    (∀ cfg : Config, cfg.cardiovascular = none →
        (CardiovascularRiskModel.init cfg).thresholds = [])
    ∧ (∀ cfg : Config, cfg.metabolic = none → (MetabolicRiskModel.init cfg).thresholds = [])
    ∧ (∀ cfg : Config, cfg.renal = none → (RenalRiskModel.init cfg).thresholds = [])
    ∧ (∀ cfg : Config, cfg.hepatic = none → (HepaticRiskModel.init cfg).thresholds = [])
    ∧ (∀ cfg : Config, cfg.hematologic = none →
        (HematologicRiskModel.init cfg).thresholds = [])
    ∧ (∀ (cfg : Config) (p : Patient), cfg.risk_weights = none →
        (CompositeRiskModel.calculate_composite_score cfg p).isSome = true) := by
  refine ⟨?_, ?_, ?_, ?_, ?_, ?_⟩
  · intro cfg h
    simp [CardiovascularRiskModel.init, h]
  · intro cfg h
    simp [MetabolicRiskModel.init, h]
  · intro cfg h
    simp [RenalRiskModel.init, h]
  · intro cfg h
    simp [HepaticRiskModel.init, h]
  · intro cfg h
    simp [HematologicRiskModel.init, h]
  · intro cfg p h
    unfold CompositeRiskModel.calculate_composite_score
    dsimp only
    rw [h]
    rfl

/-- Witness for C7 at the empty configuration and empty record. -/
theorem C7_missing_config_witness :
    (({} : Config).cardiovascular = none
        ∧ (CardiovascularRiskModel.init {}).thresholds = [])
      ∧ (({} : Config).risk_weights = none
        ∧ (CompositeRiskModel.calculate_composite_score {} {}).isSome = true) :=
  ⟨⟨rfl, C7_missing_config_amended.1 {} rfl⟩,
    ⟨rfl, C7_missing_config_amended.2.2.2.2.2 {} {} rfl⟩⟩

/-! ## C8 -/

/-- The default weight table always yields a weighted sum. -/
theorem weightedSum_default (ds : CompositeRiskModel.DomainScores) :
    CompositeRiskModel.weightedSum defaultWeights ds
      = some ((0.30 : ℚ) * ds.cardiovascular + 0.25 * ds.metabolic + 0.20 * ds.renal
          + 0.15 * ds.hepatic + 0.10 * ds.hematologic) := rfl

/-- C8 counterexample: a configured `risk_weights` table that holds only the
cardiovascular key makes `calculate_composite_score` raise `KeyError`
(modelled as `none`) instead of completing with defaults for the missing
entries. -/
theorem C8_counterexample :
    CompositeRiskModel.calculate_composite_score
      { risk_weights := some { cardiovascular := some 1 } } {} = none := by
  unfold CompositeRiskModel.calculate_composite_score
  dsimp only
  rfl

/-- C8 amended: the documented default weights are used only when the whole
`risk_weights` key is absent, in which case scoring always completes; a
present-but-partial table is not filled in with defaults — the weighted
combination raises `KeyError` (modelled `none`) whenever any of the five
domain keys is missing. -/
theorem C8_weight_defaults_amended :
    (∀ (cfg : Config) (p : Patient), cfg.risk_weights = none →
      CompositeRiskModel.calculate_composite_score cfg p
          = CompositeRiskModel.calculate_composite_score
              { cfg with risk_weights := some defaultWeights } p
        ∧ (CompositeRiskModel.calculate_composite_score cfg p).isSome = true)
    ∧ (∀ (cfg : Config) (p : Patient) (w : WeightMap), cfg.risk_weights = some w →
        (w.cardiovascular = none ∨ w.metabolic = none ∨ w.renal = none
          ∨ w.hepatic = none ∨ w.hematologic = none) →
        CompositeRiskModel.calculate_composite_score cfg p = none) := by
  constructor
  · intro cfg p h
    constructor
    · unfold CompositeRiskModel.calculate_composite_score
      rw [h]
      rfl
    · unfold CompositeRiskModel.calculate_composite_score
      dsimp only
      rw [h]
      rfl
  · intro cfg p w hw hmiss
    unfold CompositeRiskModel.calculate_composite_score
    dsimp only
    rw [hw]
    have : CompositeRiskModel.weightedSum ((some w).getD defaultWeights)
        (CompositeRiskModel.domainScores p) = none := by
      unfold CompositeRiskModel.weightedSum
      rcases hmiss with h | h | h | h | h <;> simp [h]
    rw [this]

/-- Witness for C8: the absent-table branch at the empty configuration. -/
theorem C8_weight_defaults_witness :
    CompositeRiskModel.calculate_composite_score {} {}
        = CompositeRiskModel.calculate_composite_score
            { ({} : Config) with risk_weights := some defaultWeights } {}
      ∧ (CompositeRiskModel.calculate_composite_score {} {}).isSome = true :=
  C8_weight_defaults_amended.1 {} {} rfl

/-! ## C9: per-marker band monotonicity lemmas -/

theorem ldlScore_mono {v w : ℚ}
    (h : CardiovascularRiskModel.ldlBand v < CardiovascularRiskModel.ldlBand w) :
    CardiovascularRiskModel.ldlScore (some v) ≤ CardiovascularRiskModel.ldlScore (some w) := by
  simp only [CardiovascularRiskModel.ldlBand] at h
  simp only [CardiovascularRiskModel.ldlScore]
  split_ifs at h ⊢ <;> first | rfl | (exact absurd h (by omega)) | norm_num | linarith

theorem tgScore_mono {v w : ℚ}
    (h : CardiovascularRiskModel.tgBand v < CardiovascularRiskModel.tgBand w) :
    CardiovascularRiskModel.tgScore (some v) ≤ CardiovascularRiskModel.tgScore (some w) := by
  simp only [CardiovascularRiskModel.tgBand] at h
  simp only [CardiovascularRiskModel.tgScore]
  split_ifs at h ⊢ <;> first | rfl | (exact absurd h (by omega)) | norm_num | linarith

theorem tcHdlScore_mono {v w : ℚ}
    (h : CardiovascularRiskModel.tcHdlBand v < CardiovascularRiskModel.tcHdlBand w) :
    CardiovascularRiskModel.tcHdlScore (some v) ≤ CardiovascularRiskModel.tcHdlScore (some w) := by
  simp only [CardiovascularRiskModel.tcHdlBand] at h
  simp only [CardiovascularRiskModel.tcHdlScore]
  split_ifs at h ⊢ <;> first | rfl | (exact absurd h (by omega)) | norm_num | linarith

theorem glucoseScore_mono {v w : ℚ}
    (h : MetabolicRiskModel.glucoseBand v < MetabolicRiskModel.glucoseBand w) :
    MetabolicRiskModel.glucoseScore (some v) ≤ MetabolicRiskModel.glucoseScore (some w) := by
  simp only [MetabolicRiskModel.glucoseBand] at h
  simp only [MetabolicRiskModel.glucoseScore]
  split_ifs at h ⊢ <;> first | rfl | (exact absurd h (by omega)) | norm_num | linarith

theorem hba1cScore_mono {v w : ℚ}
    (h : MetabolicRiskModel.hba1cBand v < MetabolicRiskModel.hba1cBand w) :
    MetabolicRiskModel.hba1cScore (some v) ≤ MetabolicRiskModel.hba1cScore (some w) := by
  simp only [MetabolicRiskModel.hba1cBand] at h
  simp only [MetabolicRiskModel.hba1cScore]
  split_ifs at h ⊢ <;> first | rfl | (exact absurd h (by omega)) | norm_num | linarith

theorem homaScore_mono {v w : ℚ}
    (h : MetabolicRiskModel.homaBand v < MetabolicRiskModel.homaBand w) :
    MetabolicRiskModel.homaScore (some v) ≤ MetabolicRiskModel.homaScore (some w) := by
  simp only [MetabolicRiskModel.homaBand] at h
  simp only [MetabolicRiskModel.homaScore]
  split_ifs at h ⊢ <;> first | rfl | (exact absurd h (by omega)) | norm_num | linarith

theorem egfrScore_mono {v w : ℚ}
    (h : RenalRiskModel.egfrBand v < RenalRiskModel.egfrBand w) :
    RenalRiskModel.egfrScore (some v) ≤ RenalRiskModel.egfrScore (some w) := by
  simp only [RenalRiskModel.egfrBand] at h
  simp only [RenalRiskModel.egfrScore]
  split_ifs at h ⊢ <;> first | rfl | (exact absurd h (by omega)) | norm_num | linarith

theorem acrScore_mono {v w : ℚ}
    (h : RenalRiskModel.acrBand v < RenalRiskModel.acrBand w) :
    RenalRiskModel.acrScore (some v) ≤ RenalRiskModel.acrScore (some w) := by
  simp only [RenalRiskModel.acrBand] at h
  simp only [RenalRiskModel.acrScore]
  split_ifs at h ⊢ <;> first | rfl | (exact absurd h (by omega)) | norm_num | linarith

theorem fib4Score_mono {v w : ℚ}
    (h : HepaticRiskModel.fib4Band v < HepaticRiskModel.fib4Band w) :
    HepaticRiskModel.fib4Score (some v) ≤ HepaticRiskModel.fib4Score (some w) := by
  simp only [HepaticRiskModel.fib4Band] at h
  simp only [HepaticRiskModel.fib4Score]
  split_ifs at h ⊢ <;> first | rfl | (exact absurd h (by omega)) | norm_num | linarith

theorem hepRatioScore_mono {v w : ℚ}
    (h : HepaticRiskModel.ratioBand v < HepaticRiskModel.ratioBand w) :
    HepaticRiskModel.ratioScore (some v) ≤ HepaticRiskModel.ratioScore (some w) := by
  simp only [HepaticRiskModel.ratioBand] at h
  simp only [HepaticRiskModel.ratioScore]
  split_ifs at h ⊢ <;> first | rfl | (exact absurd h (by omega)) | norm_num | linarith

theorem albuminScore_mono {v w : ℚ}
    (h : HepaticRiskModel.albuminBand v < HepaticRiskModel.albuminBand w) :
    HepaticRiskModel.albuminScore (some v) ≤ HepaticRiskModel.albuminScore (some w) := by
  simp only [HepaticRiskModel.albuminBand] at h
  simp only [HepaticRiskModel.albuminScore]
  split_ifs at h ⊢ <;> first | rfl | (exact absurd h (by omega)) | norm_num | linarith

theorem bilirubinScore_mono {v w : ℚ}
    (h : HepaticRiskModel.bilirubinBand v < HepaticRiskModel.bilirubinBand w) :
    HepaticRiskModel.bilirubinScore (some v) ≤ HepaticRiskModel.bilirubinScore (some w) := by
  simp only [HepaticRiskModel.bilirubinBand] at h
  simp only [HepaticRiskModel.bilirubinScore]
  split_ifs at h ⊢ <;> first | rfl | (exact absurd h (by omega)) | norm_num | linarith

theorem wbcScore_mono {v w : ℚ}
    (h : HematologicRiskModel.wbcBand v < HematologicRiskModel.wbcBand w) :
    HematologicRiskModel.wbcScore (some v) ≤ HematologicRiskModel.wbcScore (some w) := by
  simp only [HematologicRiskModel.wbcBand] at h
  simp only [HematologicRiskModel.wbcScore]
  split_ifs at h ⊢ <;> first | rfl | (exact absurd h (by omega)) | norm_num | linarith

theorem pltScore_mono {v w : ℚ}
    (h : HematologicRiskModel.pltBand v < HematologicRiskModel.pltBand w) :
    HematologicRiskModel.pltScore (some v) ≤ HematologicRiskModel.pltScore (some w) := by
  simp only [HematologicRiskModel.pltBand] at h
  simp only [HematologicRiskModel.pltScore]
  split_ifs at h ⊢ <;> first | rfl | (exact absurd h (by omega)) | norm_num | linarith

theorem mcvScore_mono {v w : ℚ}
    (h : HematologicRiskModel.mcvBand v < HematologicRiskModel.mcvBand w) :
    HematologicRiskModel.mcvScore (some v) ≤ HematologicRiskModel.mcvScore (some w) := by
  simp only [HematologicRiskModel.mcvBand] at h
  simp only [HematologicRiskModel.mcvScore]
  split_ifs at h ⊢ <;> first | rfl | (exact absurd h (by omega)) | norm_num | linarith

theorem hdlScore_mono (g : Option ℚ) {v w : ℚ}
    (h : CardiovascularRiskModel.hdlBand g v < CardiovascularRiskModel.hdlBand g w) :
    CardiovascularRiskModel.hdlScore g (some v) ≤ CardiovascularRiskModel.hdlScore g (some w) := by
  simp only [CardiovascularRiskModel.hdlBand] at h
  simp only [CardiovascularRiskModel.hdlScore]
  split_ifs at h ⊢ <;> first | rfl | (exact absurd h (by omega)) | norm_num | linarith

theorem astScore_mono (g : Option ℚ) {v w : ℚ}
    (h : HepaticRiskModel.astBand g v < HepaticRiskModel.astBand g w) :
    HepaticRiskModel.astScore g (some v) ≤ HepaticRiskModel.astScore g (some w) := by
  simp only [HepaticRiskModel.astBand] at h
  simp only [HepaticRiskModel.astScore]
  split_ifs at h ⊢ <;> first | rfl | (exact absurd h (by omega)) | norm_num | linarith

theorem altScore_mono (g : Option ℚ) {v w : ℚ}
    (h : HepaticRiskModel.altBand g v < HepaticRiskModel.altBand g w) :
    HepaticRiskModel.altScore g (some v) ≤ HepaticRiskModel.altScore g (some w) := by
  simp only [HepaticRiskModel.altBand] at h
  simp only [HepaticRiskModel.altScore]
  split_ifs at h ⊢ <;> first | rfl | (exact absurd h (by omega)) | norm_num | linarith

theorem hgbScore_mono (g : Option ℚ) {v w : ℚ}
    (h : HematologicRiskModel.hgbBand g v < HematologicRiskModel.hgbBand g w) :
    HematologicRiskModel.hgbScore g (some v) ≤ HematologicRiskModel.hgbScore g (some w) := by
  simp only [HematologicRiskModel.hgbBand] at h
  simp only [HematologicRiskModel.hgbScore]
  split_ifs at h ⊢ <;> first | rfl | (exact absurd h (by omega)) | norm_num | linarith

/-- C9: for each of the five domain scorers and every record, replacing one
scored marker value by a value in a strictly more severe band of that marker
(bands indexed by contribution weight, in the high-to-low evaluation order of
the code; gender-conditioned thresholds taken from the gender of the record) while
holding every other field fixed never decreases `calculate_score`: every band
weight is monotone in the band index, the age multipliers are all positive,
and the final clamp and rounding are monotone. -/
theorem C9_monotonicity :
    ∀ p : Patient,
      (∀ v w : ℚ, CardiovascularRiskModel.ldlBand v < CardiovascularRiskModel.ldlBand w →
        CardiovascularRiskModel.calculate_score { p with LBDLDL := some v }
          ≤ CardiovascularRiskModel.calculate_score { p with LBDLDL := some w })
      ∧ (∀ v w : ℚ, CardiovascularRiskModel.hdlBand p.RIAGENDR v < CardiovascularRiskModel.hdlBand p.RIAGENDR w →
        CardiovascularRiskModel.calculate_score { p with LBDHDD := some v }
          ≤ CardiovascularRiskModel.calculate_score { p with LBDHDD := some w })
      ∧ (∀ v w : ℚ, CardiovascularRiskModel.tgBand v < CardiovascularRiskModel.tgBand w →
        CardiovascularRiskModel.calculate_score { p with LBXTR := some v }
          ≤ CardiovascularRiskModel.calculate_score { p with LBXTR := some w })
      ∧ (∀ v w : ℚ, CardiovascularRiskModel.tcHdlBand v < CardiovascularRiskModel.tcHdlBand w →
        CardiovascularRiskModel.calculate_score { p with TC_HDL_ratio := some v }
          ≤ CardiovascularRiskModel.calculate_score { p with TC_HDL_ratio := some w })
      ∧ (∀ v w : ℚ, MetabolicRiskModel.glucoseBand v < MetabolicRiskModel.glucoseBand w →
        MetabolicRiskModel.calculate_score { p with LBXGLU := some v }
          ≤ MetabolicRiskModel.calculate_score { p with LBXGLU := some w })
      ∧ (∀ v w : ℚ, MetabolicRiskModel.hba1cBand v < MetabolicRiskModel.hba1cBand w →
        MetabolicRiskModel.calculate_score { p with LBXGH := some v }
          ≤ MetabolicRiskModel.calculate_score { p with LBXGH := some w })
      ∧ (∀ v w : ℚ, MetabolicRiskModel.homaBand v < MetabolicRiskModel.homaBand w →
        MetabolicRiskModel.calculate_score { p with HOMA_IR := some v }
          ≤ MetabolicRiskModel.calculate_score { p with HOMA_IR := some w })
      ∧ (∀ v w : ℚ, RenalRiskModel.egfrBand v < RenalRiskModel.egfrBand w →
        RenalRiskModel.calculate_score { p with eGFR := some v }
          ≤ RenalRiskModel.calculate_score { p with eGFR := some w })
      ∧ (∀ v w : ℚ, RenalRiskModel.acrBand v < RenalRiskModel.acrBand w →
        RenalRiskModel.calculate_score { p with ACR := some v }
          ≤ RenalRiskModel.calculate_score { p with ACR := some w })
      ∧ (∀ v w : ℚ, HepaticRiskModel.astBand p.RIAGENDR v < HepaticRiskModel.astBand p.RIAGENDR w →
        HepaticRiskModel.calculate_score { p with LBXSASSI := some v }
          ≤ HepaticRiskModel.calculate_score { p with LBXSASSI := some w })
      ∧ (∀ v w : ℚ, HepaticRiskModel.altBand p.RIAGENDR v < HepaticRiskModel.altBand p.RIAGENDR w →
        HepaticRiskModel.calculate_score { p with LBXSGTSI := some v }
          ≤ HepaticRiskModel.calculate_score { p with LBXSGTSI := some w })
      ∧ (∀ v w : ℚ, HepaticRiskModel.fib4Band v < HepaticRiskModel.fib4Band w →
        HepaticRiskModel.calculate_score { p with FIB4 := some v }
          ≤ HepaticRiskModel.calculate_score { p with FIB4 := some w })
      ∧ (∀ v w : ℚ, HepaticRiskModel.ratioBand v < HepaticRiskModel.ratioBand w →
        HepaticRiskModel.calculate_score { p with AST_ALT_ratio := some v }
          ≤ HepaticRiskModel.calculate_score { p with AST_ALT_ratio := some w })
      ∧ (∀ v w : ℚ, HepaticRiskModel.albuminBand v < HepaticRiskModel.albuminBand w →
        HepaticRiskModel.calculate_score { p with LBXSAL := some v }
          ≤ HepaticRiskModel.calculate_score { p with LBXSAL := some w })
      ∧ (∀ v w : ℚ, HepaticRiskModel.bilirubinBand v < HepaticRiskModel.bilirubinBand w →
        HepaticRiskModel.calculate_score { p with LBXSTB := some v }
          ≤ HepaticRiskModel.calculate_score { p with LBXSTB := some w })
      ∧ (∀ v w : ℚ, HematologicRiskModel.hgbBand p.RIAGENDR v < HematologicRiskModel.hgbBand p.RIAGENDR w →
        HematologicRiskModel.calculate_score { p with LBXHGB := some v }
          ≤ HematologicRiskModel.calculate_score { p with LBXHGB := some w })
      ∧ (∀ v w : ℚ, HematologicRiskModel.wbcBand v < HematologicRiskModel.wbcBand w →
        HematologicRiskModel.calculate_score { p with LBXWBCSI := some v }
          ≤ HematologicRiskModel.calculate_score { p with LBXWBCSI := some w })
      ∧ (∀ v w : ℚ, HematologicRiskModel.pltBand v < HematologicRiskModel.pltBand w →
        HematologicRiskModel.calculate_score { p with LBXPLTSI := some v }
          ≤ HematologicRiskModel.calculate_score { p with LBXPLTSI := some w })
      ∧ (∀ v w : ℚ, HematologicRiskModel.mcvBand v < HematologicRiskModel.mcvBand w →
        HematologicRiskModel.calculate_score { p with LBXMCVSI := some v }
          ≤ HematologicRiskModel.calculate_score { p with LBXMCVSI := some w }) := by
  intro p
  refine ⟨?_, ?_, ?_, ?_, ?_, ?_, ?_, ?_, ?_, ?_, ?_, ?_, ?_, ?_, ?_, ?_, ?_, ?_, ?_⟩
  · intro v w h
    unfold CardiovascularRiskModel.calculate_score
    dsimp only
    exact round1_mono (clamp01_mono (cvAgeAdjust_mono _ (by
      have hx := ldlScore_mono h
      linarith)))
  · intro v w h
    unfold CardiovascularRiskModel.calculate_score
    dsimp only
    exact round1_mono (clamp01_mono (cvAgeAdjust_mono _ (by
      have hx := hdlScore_mono _ h
      linarith)))
  · intro v w h
    unfold CardiovascularRiskModel.calculate_score
    dsimp only
    exact round1_mono (clamp01_mono (cvAgeAdjust_mono _ (by
      have hx := tgScore_mono h
      linarith)))
  · intro v w h
    unfold CardiovascularRiskModel.calculate_score
    dsimp only
    exact round1_mono (clamp01_mono (cvAgeAdjust_mono _ (by
      have hx := tcHdlScore_mono h
      linarith)))
  · intro v w h
    unfold MetabolicRiskModel.calculate_score
    dsimp only
    exact round1_mono (clamp01_mono (metAgeAdjust_mono _ (by
      have hx := glucoseScore_mono h
      linarith)))
  · intro v w h
    unfold MetabolicRiskModel.calculate_score
    dsimp only
    exact round1_mono (clamp01_mono (metAgeAdjust_mono _ (by
      have hx := hba1cScore_mono h
      linarith)))
  · intro v w h
    unfold MetabolicRiskModel.calculate_score
    dsimp only
    exact round1_mono (clamp01_mono (metAgeAdjust_mono _ (by
      have hx := homaScore_mono h
      linarith)))
  · intro v w h
    unfold RenalRiskModel.calculate_score
    dsimp only
    exact round1_mono (clamp01_mono (renalAgeAdjust_mono _ (by
      have hx := egfrScore_mono h
      linarith)))
  · intro v w h
    unfold RenalRiskModel.calculate_score
    dsimp only
    exact round1_mono (clamp01_mono (renalAgeAdjust_mono _ (by
      have hx := acrScore_mono h
      linarith)))
  · intro v w h
    unfold HepaticRiskModel.calculate_score
    dsimp only
    exact round1_mono (clamp01_mono (hepAgeAdjust_mono _ (by
      have hx := astScore_mono _ h
      linarith)))
  · intro v w h
    unfold HepaticRiskModel.calculate_score
    dsimp only
    exact round1_mono (clamp01_mono (hepAgeAdjust_mono _ (by
      have hx := altScore_mono _ h
      linarith)))
  · intro v w h
    unfold HepaticRiskModel.calculate_score
    dsimp only
    exact round1_mono (clamp01_mono (hepAgeAdjust_mono _ (by
      have hx := fib4Score_mono h
      linarith)))
  · intro v w h
    unfold HepaticRiskModel.calculate_score
    dsimp only
    exact round1_mono (clamp01_mono (hepAgeAdjust_mono _ (by
      have hx := hepRatioScore_mono h
      linarith)))
  · intro v w h
    unfold HepaticRiskModel.calculate_score
    dsimp only
    exact round1_mono (clamp01_mono (hepAgeAdjust_mono _ (by
      have hx := albuminScore_mono h
      linarith)))
  · intro v w h
    unfold HepaticRiskModel.calculate_score
    dsimp only
    exact round1_mono (clamp01_mono (hepAgeAdjust_mono _ (by
      have hx := bilirubinScore_mono h
      linarith)))
  · intro v w h
    unfold HematologicRiskModel.calculate_score
    dsimp only
    exact round1_mono (clamp01_mono (hemaAgeAdjust_mono _ (by
      have hx := hgbScore_mono _ h
      linarith)))
  · intro v w h
    unfold HematologicRiskModel.calculate_score
    dsimp only
    exact round1_mono (clamp01_mono (hemaAgeAdjust_mono _ (by
      have hx := wbcScore_mono h
      linarith)))
  · intro v w h
    unfold HematologicRiskModel.calculate_score
    dsimp only
    exact round1_mono (clamp01_mono (hemaAgeAdjust_mono _ (by
      have hx := pltScore_mono h
      linarith)))
  · intro v w h
    unfold HematologicRiskModel.calculate_score
    dsimp only
    exact round1_mono (clamp01_mono (hemaAgeAdjust_mono _ (by
      have hx := mcvScore_mono h
      linarith)))

/-- Witness for C9: moving LDL from the lowest band to the 130-159 band. -/
theorem C9_monotonicity_witness :
    CardiovascularRiskModel.ldlBand 90 < CardiovascularRiskModel.ldlBand 150
      ∧ CardiovascularRiskModel.calculate_score { ({} : Patient) with LBDLDL := some 90 }
          ≤ CardiovascularRiskModel.calculate_score { ({} : Patient) with LBDLDL := some 150 } :=
  ⟨by norm_num [CardiovascularRiskModel.ldlBand],
    (C9_monotonicity {}).1 90 150 (by norm_num [CardiovascularRiskModel.ldlBand])⟩

/-! ## C10 -/

/-- C10: serum creatinine (LBXSCR) never influences the renal score — the
scorer reads only eGFR, ACR and age — yet `identify_risk_factors` emits a
Creatinine factor above the gender threshold (1.3 for male or missing gender,
1.1 for female); the record holding only LBXSCR = 2 has renal score 0 with a
non-empty renal risk-factor list. -/
theorem C10_creatinine_factor :
    (∀ (p : Patient) (v : Option ℚ),
      RenalRiskModel.calculate_score { p with LBXSCR := v }
        = RenalRiskModel.calculate_score p)
    ∧ RenalRiskModel.calculate_score { LBXSCR := some 2 } = 0
    ∧ (RenalRiskModel.identify_risk_factors { LBXSCR := some 2 }).map RiskFactor.marker
        = ["Creatinine"] := by
  refine ⟨fun p v => rfl, ?_, ?_⟩
  · simp [RenalRiskModel.calculate_score, RenalRiskModel.egfrScore, RenalRiskModel.acrScore,
      RenalRiskModel.ageAdjust, clamp01, round1, pyRound]
  · simp [RenalRiskModel.identify_risk_factors, RenalRiskModel.egfrFactor,
      RenalRiskModel.acrFactor, RenalRiskModel.creatinineFactor]
    norm_num
